import Mathlib

/-!
Shallow embedding of the MedBot chatbot scripts (`app.py`, `chat.py`,
`chatbot.py`) and the rule-based symptom classifier
(`models/symptom_classifier_tf.py`).

Conventions of the embedding:
* CSV tables (hospitals, doctors, the symptom table) are passed as lists of
  structures; the repository ships them as data files outside the source.
* External collaborators that are not part of the repository's decision
  logic — `dateparser.parse`, `uuid.uuid4().hex[:6]`, the DialoGPT /
  sentiment reply generator of `chat.py`, and the untrained Bio_ClinicalBERT
  head of `chatbot.py` — are supplied as oracle arguments to the turn
  functions, one value per call site.
* A turn function returns `Option TurnOut`; `none` models an uncaught
  Python exception (`KeyError`, `IndexError`, `ValueError` from `strptime`).
* Python string helpers (`lower`, `upper`, `strip`, `str(n)`) are modelled
  by structural functions over character lists (`strLower`, `strUpper`,
  `strTrim`, `natToStr`); the inputs considered are ASCII, where they agree.
-/

/-- Python's substring test `needle in hay`, on character lists:
`leadsWith n h` is true when `n` is an initial segment of `h`. -/
def leadsWith : List Char → List Char → Bool
  | [], _ => true
  | _ :: _, [] => false
  | a :: as, b :: bs => a = b && leadsWith as bs

/-- `hasSubAt n h` : `n` occurs contiguously inside `h` (Python `n in h`),
testing the needle against every suffix of the hay. -/
def hasSubAt : List Char → List Char → Bool
  | n, [] => n.isEmpty
  | n, c :: t => leadsWith n (c :: t) || hasSubAt n t

/-- Python `needle in hay` for strings. -/
def strContains (hay needle : String) : Bool :=
  hasSubAt needle.toList hay.toList

/-- Python dict lookup `d[k]` / `d.get(k)` on an insertion-ordered
association list. -/
def dictGet : List (String × String) → String → Option String
  | [], _ => none
  | p :: t, k => if p.fst = k then some p.snd else dictGet t k

/-- Python dict update `d[k] = v`: overwrite in place, or append a new key. -/
def dictSet : List (String × String) → String → String → List (String × String)
  | [], k, v => [(k, v)]
  | p :: t, k, v => if p.fst = k then (k, v) :: t else p :: dictSet t k v

/-- The key set of a Python dict, in insertion order. -/
def dictKeys (d : List (String × String)) : List String := d.map (·.fst)

/-- Comparison of `datetime.time` values (hour, minute). -/
def timeLE (a b : Nat × Nat) : Bool :=
  a.fst * 60 + a.snd ≤ b.fst * 60 + b.snd

/-- Numeric value of an ASCII digit character. -/
def digitVal (c : Char) : Nat := c.toNat - '0'.toNat

/-- Python regex `\s` (the characters that `re` treats as whitespace). -/
def isPySpace (c : Char) : Bool :=
  c = ' ' || c = '\t' || c = '\n' || c = '\r' || c = Char.ofNat 11 || c = Char.ofNat 12

/-- ASCII `str.lower` on one character (the inputs modelled are ASCII,
where Python's `str.lower` agrees). -/
def charLower (c : Char) : Char :=
  if 'A' ≤ c ∧ c ≤ 'Z' then Char.ofNat (c.toNat + 32) else c

/-- ASCII `str.upper` on one character. -/
def charUpper (c : Char) : Char :=
  if 'a' ≤ c ∧ c ≤ 'z' then Char.ofNat (c.toNat - 32) else c

/-- Python `str.lower()` (ASCII regime). -/
def strLower (s : String) : String := String.mk (s.data.map charLower)

/-- Python `str.upper()` (ASCII regime). -/
def strUpper (s : String) : String := String.mk (s.data.map charUpper)

/-- Python `str.strip()` (ASCII whitespace regime). -/
def strTrim (s : String) : String :=
  String.mk (((s.data.dropWhile isPySpace).reverse.dropWhile isPySpace).reverse)

/-- Split a character list at every occurrence of `sep`. -/
def splitChar (sep : Char) : List Char → List (List Char)
  | [] => [[]]
  | x :: xs =>
    match splitChar sep xs with
    | [] => [[]]
    | y :: ys => if x = sep then [] :: y :: ys else (x :: y) :: ys

/-- Decimal value of a non-empty all-digit character list. -/
def digitsVal (l : List Char) : Option Nat :=
  if l ≠ [] ∧ l.all Char.isDigit then
    some (l.foldl (fun acc c => 10 * acc + (c.toNat - 48)) 0)
  else none

/-- The ASCII digit character of `n < 10`. -/
def digitChar (n : Nat) : Char := Char.ofNat (48 + n)

/-- Decimal digits of `n`, given enough `fuel` (any `fuel > n` works). -/
def natToStrAux : Nat → Nat → List Char
  | 0, _ => []
  | fuel + 1, n =>
    if n < 10 then [digitChar n] else natToStrAux fuel (n / 10) ++ [digitChar (n % 10)]

/-- Decimal rendering of a natural number (Python `str(n)` / `f"{n:d}"`). -/
def natToStr (n : Nat) : String := String.mk (natToStrAux (n + 1) n)

/-- `datetime.strptime(s, "%H:%M").time()`: one or two digits of hour
(0-23), a colon, one or two digits of minute (0-59); raises otherwise. -/
def parseTimeHM (s : String) : Option (Nat × Nat) :=
  match splitChar ':' s.data with
  | [h, m] =>
    if h.length ≤ 2 ∧ m.length ≤ 2 then
      match digitsVal h, digitsVal m with
      | some hv, some mv => if hv ≤ 23 ∧ mv ≤ 59 then some (hv, mv) else none
      | _, _ => none
    else none
  | _ => none

/-- Python `f"{n:02d}"`. -/
def fmt2 (n : Nat) : String :=
  if n < 10 then "0" ++ natToStr n else natToStr n

/-- Python `time.strftime("%I:%M %p")`: 12-hour clock with AM/PM. -/
def fmt12 (t : Nat × Nat) : String :=
  let h12 := if t.fst % 12 = 0 then 12 else t.fst % 12
  let ap := if t.fst < 12 then "AM" else "PM"
  fmt2 h12 ++ ":" ++ fmt2 t.snd ++ " " ++ ap

/-! ### Model of `difflib` (no-junk regime)

`difflib.get_close_matches` is used by `predict_department_tf` with
`n=1, cutoff=0.4`.  `SequenceMatcher`'s junk heuristics are inert here:
`autojunk` only fires when the second sequence has at least 200 elements,
and no `isjunk` predicate is passed; this model covers that regime. -/

/-- Length of the common run of two sequences starting at their heads. -/
def extLen : List Char → List Char → Nat
  | x :: xs, y :: ys => if x = y then extLen xs ys + 1 else 0
  | _, _ => 0

/-- `SequenceMatcher.find_longest_match` over the full ranges: the longest
common contiguous block, ties resolved to the smallest start in `a`, then
the smallest start in `b` — the block the dynamic program reaches first. -/
def findLongestMatch (a b : List Char) : Nat × Nat × Nat :=
  ((List.range a.length).flatMap fun i =>
      (List.range b.length).map fun j => (i, j)).foldl
    (fun best p =>
      let k := extLen (a.drop p.fst) (b.drop p.snd)
      if best.snd.snd < k then (p.fst, p.snd, k) else best)
    (0, 0, 0)

/-- Total size of the matching blocks (`get_matching_blocks`): recursively
split around the longest match.  `fuel` bounds the recursion; any value of
at least `a.length + b.length` is enough, since each split strictly
shrinks the combined length. -/
def matchingSize (fuel : Nat) (a b : List Char) : Nat :=
  match fuel with
  | 0 => 0
  | fuel + 1 =>
    let m := findLongestMatch a b
    if m.snd.snd = 0 then 0
    else
      matchingSize fuel (a.take m.fst) (b.take m.snd.fst)
        + m.snd.snd
        + matchingSize fuel (a.drop (m.fst + m.snd.snd)) (b.drop (m.snd.fst + m.snd.snd))

/-- `SequenceMatcher(None, a, b).ratio()` = `2*M / (len a + len b)` (and 1
when both sequences are empty), represented exactly as a numerator/
denominator pair of naturals with positive denominator. -/
def seqRatioPair (a b : List Char) : Nat × Nat :=
  if a.length + b.length = 0 then (1, 1)
  else (2 * matchingSize (a.length + b.length) a b, a.length + b.length)

/-- Exact comparison of two such ratio pairs (`difflib` compares the
correctly-rounded float ratios; the exact rational order is modelled). -/
def ratioLT (x y : Nat × Nat) : Bool := x.fst * y.snd < y.fst * x.snd

/-- See `ratioLT`. -/
def ratioEQ (x y : Nat × Nat) : Bool := x.fst * y.snd = y.fst * x.snd

/-- Lexicographic order on character lists (Python string `<`). -/
def listLT : List Char → List Char → Bool
  | [], [] => false
  | [], _ :: _ => true
  | _ :: _, [] => false
  | a :: as, b :: bs => if a = b then listLT as bs else decide (a < b)

/-- `difflib.get_close_matches(word, possibilities, n=1, cutoff=0.4)`:
keep the possibilities whose ratio against `word` is at least 2/5 — the
chained `real_quick_ratio`/`quick_ratio` tests are upper bounds of
`ratio`, so the filter reduces to `ratio ≥ cutoff`, i.e. `2*den ≤ 5*num` —
then take the largest `(ratio, possibility)` pair; `heapq.nlargest`
compares the pairs lexicographically, so ratio ties go to the
lexicographically larger string. -/
def getCloseMatches1 (word : String) (possibilities : List String) : Option String :=
  let scored := possibilities.filterMap fun x =>
    let r := seqRatioPair x.data word.data
    if 2 * r.snd ≤ 5 * r.fst then some (r, x) else none
  (scored.foldl
    (fun best p =>
      match best with
      | none => some p
      | some q =>
        if ratioLT q.fst p.fst || (ratioEQ q.fst p.fst && listLT q.snd.data p.snd.data)
        then some p else some q)
    none).map (·.snd)

/-! ### `models/symptom_classifier_tf.py` -/

/-- The keyword table of `fallback_symptom_mapping`, in the source's
dict-insertion order. -/
def symptomMap : List (String × List String) :=
  [ ("Cardiology",
      ["chest pain", "heart", "cardiac", "palpitation", "angina",
       "hypertension", "blood pressure", "arrhythmia", "shortness of breath"]),
    ("Neurology",
      ["headache", "migraine", "seizure", "stroke", "paralysis",
       "numbness", "dizziness", "vertigo", "tremor", "memory loss"]),
    ("Orthopedics",
      ["bone", "fracture", "joint pain", "arthritis", "back pain",
       "sprain", "knee pain", "shoulder pain", "hip pain", "muscle pain"]),
    ("Dermatology",
      ["skin", "rash", "acne", "eczema", "psoriasis", "itching",
       "allergy", "hives", "pimples", "skin infection"]),
    ("Gastroenterology",
      ["stomach", "abdominal pain", "diarrhea", "constipation",
       "vomiting", "nausea", "indigestion", "gastric", "liver", "intestine"]),
    ("ENT",
      ["ear", "nose", "throat", "hearing", "tonsil", "sinus",
       "voice", "vertigo", "ear pain", "sore throat"]),
    ("Ophthalmology",
      ["eye", "vision", "cataract", "glaucoma", "blurred vision",
       "eye pain", "red eye", "conjunctivitis"]),
    ("Pulmonology",
      ["lung", "breathing", "cough", "asthma", "bronchitis",
       "pneumonia", "chest congestion", "respiratory"]),
    ("Pediatrics",
      ["child", "infant", "baby", "vaccination", "growth",
       "childhood illness", "pediatric"]),
    ("Gynecology",
      ["pregnancy", "menstrual", "period", "ovarian", "uterus",
       "pcos", "gynec", "women's health"]),
    ("Urology",
      ["kidney", "bladder", "urinary", "prostate", "urine",
       "uti", "kidney stone"]),
    ("Psychiatry",
      ["depression", "anxiety", "mental", "stress", "insomnia",
       "mood", "psychological", "panic attack"]),
    ("Endocrinology",
      ["diabetes", "thyroid", "hormone", "sugar", "insulin",
       "metabolic", "gland"]),
    ("Oncology",
      ["cancer", "tumor", "chemotherapy", "radiation", "malignant",
       "oncology"]) ]

/-- `fallback_symptom_mapping`: first department (in table order) one of
whose keywords occurs in the lowered text, else "General Medicine". -/
def fallbackSymptomMapping (userInput : String) : String :=
  let text := (strLower userInput)
  match symptomMap.find? (fun p => p.snd.any fun kw => strContains text kw) with
  | some p => p.fst
  | none => "General Medicine"

/-- `predict_department_tf`.  The symptom CSV (`symptom`, `department`
columns) is passed as `csv`; `none` models `FileNotFoundError`, which the
source answers by delegating to `fallback_symptom_mapping`.  With the CSV
present: first row whose symptom is a substring of the lowered text, else
the fuzzy match, else "General Medicine". -/
def predictDepartmentTf (csv : Option (List (String × String))) (userInput : String) : String :=
  match csv with
  | none => fallbackSymptomMapping userInput
  | some df =>
    let text := (strLower userInput)
    match df.find? (fun row => strContains text (strLower row.fst)) with
    | some row => row.snd
    | none =>
      let symptoms := df.map (fun r => (strLower r.fst))
      match getCloseMatches1 text symptoms with
      | some closest =>
        -- the match is drawn from `symptoms`, so the row lookup succeeds
        match df.find? (fun r => (strLower r.fst) = closest) with
        | some r => r.snd
        | none => "General Medicine"
      | none => "General Medicine"

/-! ### Data model (catalog tables, session state, bookings) -/

/-- A row of `data/hospitals.csv` (one row per hospital/department pair).
The CSV ratings are decimals with one fractional digit; they are modelled
in tenths of a star (45 = 4.5⭐) so that comparisons stay in `Nat`. -/
structure Hospital where
  hospitalId : Nat
  hospitalName : String
  city : String
  department : String
  rating : Nat
deriving Repr, DecidableEq

/-- A row of `data/doctors.csv`. -/
structure Doctor where
  doctorId : Nat
  doctorName : String
  hospitalId : Nat
  department : String
  fee : Nat
  startTime : String
  endTime : String
deriving Repr, DecidableEq

/-- The logged-in user dict (`st.session_state.user`): every constructor in
the source populates all of these fields. -/
structure UserInfo where
  name : String
  age : Nat
  gender : String
  city : String
deriving Repr, DecidableEq

/-- The mutable per-session state relevant to the dialogue logic.  The
chat history is append-only and never read by the branch logic, so it is
not modelled. -/
structure SessState where
  city : Option String
  pending : List (String × String)
  lastIntent : Option String
deriving Repr, DecidableEq

/-- A booking record as assembled by the booking branches.  `age`/`gender`
are `none` for `chat.py`'s exception-path booking, which omits those keys. -/
structure Booking where
  bookingId : String
  patient : String
  age : Option Nat
  gender : Option String
  hospital : String
  department : String
  doctor : String
  date : String
  time : String
deriving Repr, DecidableEq

/-- The observable outcome of one turn: the assistant response, the session
state after the turn, and the booking records created during the turn. -/
structure TurnOut where
  response : String
  state : SessState
  bookings : List Booking
deriving Repr, DecidableEq

/-! ### Shared catalog helpers -/

/-- `hospitals["city"].unique()`: cities in first-occurrence order. -/
def uniqueCities (hs : List Hospital) : List String :=
  hs.foldl (fun acc h => if acc.contains h.city then acc else acc ++ [h.city]) []

/-- `hospitals["department"].unique()`. -/
def uniqueDepartments (hs : List Hospital) : List String :=
  hs.foldl (fun acc h => if acc.contains h.department then acc else acc ++ [h.department]) []

/-- `hospitals["hospital_name"].unique()`. -/
def uniqueHospitalNames (hs : List Hospital) : List String :=
  hs.foldl (fun acc h => if acc.contains h.hospitalName then acc else acc ++ [h.hospitalName]) []

/-- The city-detection loop shared by all three scripts: the first city in
table (`unique()`) order whose lowered name occurs in the lowered message. -/
def detectCity (hs : List Hospital) (msgL : String) : Option String :=
  (uniqueCities hs).find? fun c => strContains msgL (strLower c)

/-- `hospitals[(city matches) & (department matches)]` (case-insensitive). -/
def matchingHospitals (hs : List Hospital) (city dept : String) : List Hospital :=
  hs.filter fun h => (strLower h.city) == (strLower city) && (strLower h.department) == (strLower dept)

/-- `doctors[(hospital_id == hid) & (department matches)]`. -/
def doctorsFor (ds : List Doctor) (hid : Nat) (dept : String) : List Doctor :=
  ds.filter fun d => d.hospitalId == hid && (strLower d.department) == (strLower dept)

/-- `df.sort_values(by="rating", ascending=False).iloc[0]`.  pandas'
default quicksort is not stable, so the row returned among rating ties is
unspecified; this model resolves ties to the earliest row. -/
def topByRating : List Hospital → Option Hospital
  | [] => none
  | h :: t =>
    match topByRating t with
    | none => some h
    | some b => if h.rating < b.rating then some b else some h

/-- Descending sort by rating for the listing branches (ties kept in row
order; pandas leaves tie order unspecified). -/
def insertByRating (h : Hospital) : List Hospital → List Hospital
  | [] => [h]
  | x :: xs => if x.rating < h.rating then h :: x :: xs else x :: insertByRating h xs

/-- See `insertByRating`. -/
def sortByRatingDesc (l : List Hospital) : List Hospital :=
  l.foldr insertByRating []

/-! ### The three time regexes -/

/-- Greedy `\d{1,2}` at the head of the list (the head is a digit). -/
def takeHour : List Char → Nat × List Char
  | [] => (0, [])
  | a :: rest =>
    match rest with
    | b :: rest2 => if b.isDigit then (10 * digitVal a + digitVal b, rest2) else (digitVal a, rest)
    | [] => (digitVal a, [])

/-- `(?:[:.](\d{2}))?` of app.py: a separator followed by exactly two
digits, or nothing. -/
def takeMinApp : List Char → Option Nat × List Char
  | s :: c :: d :: rest =>
    if (s = ':' ∨ s = '.') ∧ c.isDigit ∧ d.isDigit
    then (some (10 * digitVal c + digitVal d), rest)
    else (none, s :: c :: d :: rest)
  | l => (none, l)

/-- `(am|pm)?`, optionally case-insensitive; the captured text is returned
lowered, as both call sites compare `.lower()`. -/
def takeAmPm (ignoreCase : Bool) : List Char → Option String
  | c :: m :: _ =>
    let c1 := if ignoreCase then charLower c else c
    let m1 := if ignoreCase then charLower m else m
    if (c1 = 'a' ∨ c1 = 'p') ∧ m1 = 'm' then some (String.mk [c1, 'm']) else none
  | _ => none

/-- app.py: `re.search(r"(\d{1,2})(?:[:.](\d{2}))?\s*(am|pm)?", msg)` on the
lowered message.  Every pattern element after the leading digits is
optional, so the match starts at the first digit. -/
def timeSearchApp : List Char → Option (Nat × Nat × Option String)
  | [] => none
  | c :: rest =>
    if c.isDigit then
      let hr := takeHour (c :: rest)
      let mn := takeMinApp hr.snd
      some (hr.fst, mn.fst.getD 0, takeAmPm false (mn.snd.dropWhile isPySpace))
    else timeSearchApp rest

/-- `(?::|\.?)` of chat.py: a colon, else an optional dot. -/
def takeSepChat : List Char → List Char
  | ':' :: rest => rest
  | '.' :: rest => rest
  | l => l

/-- `(\d{2})?` of chat.py: two digits, or nothing. -/
def takeMinChat : List Char → Option Nat × List Char
  | c :: d :: rest =>
    if c.isDigit ∧ d.isDigit then (some (10 * digitVal c + digitVal d), rest)
    else (none, c :: d :: rest)
  | l => (none, l)

/-- chat.py: `re.search(r"(\d{1,2})(?::|\.?)(\d{2})?\s*(am|pm)?", msg,
re.IGNORECASE)` on the stripped, original-case message. -/
def timeSearchChat : List Char → Option (Nat × Nat × Option String)
  | [] => none
  | c :: rest =>
    if c.isDigit then
      let hr := takeHour (c :: rest)
      let mn := takeMinChat (takeSepChat hr.snd)
      some (hr.fst, mn.fst.getD 0, takeAmPm true (mn.snd.dropWhile isPySpace))
    else timeSearchChat rest

/-- chatbot.py: the pattern `\d{1,2}:\d{2}` anchored at the current
position (two-digit hour attempted first, as the quantifier is greedy). -/
def botTimeAt (cs : List Char) : Option String :=
  let two := match cs with
    | a :: b :: ':' :: c :: d :: _ =>
      if a.isDigit ∧ b.isDigit ∧ c.isDigit ∧ d.isDigit
      then some (String.mk [a, b, ':', c, d]) else none
    | _ => none
  match two with
  | some s => some s
  | none =>
    match cs with
    | a :: ':' :: c :: d :: _ =>
      if a.isDigit ∧ c.isDigit ∧ d.isDigit then some (String.mk [a, ':', c, d]) else none
    | _ => none

/-- chatbot.py: `re.search(r"(\d{1,2}):(\d{2})", msg)`; `group(0)` — the
matched text itself — becomes the booking time. -/
def timeSearchBot : List Char → Option String
  | [] => none
  | c :: rest =>
    match botTimeAt (c :: rest) with
    | some s => some s
    | none => timeSearchBot rest

/-- app.py's booking-time extraction: regex hit (with the pm shift that
never maps 12 pm to 24) rendered `"{hour:02d}:{minute:02d}"`, else the
fixed default "10:00". -/
def appBookingTimeStr (msg : String) : String :=
  match timeSearchApp msg.toList with
  | some (h, m, ap) =>
    let h1 := if ap = some "pm" ∧ h ≠ 12 then h + 12 else h
    fmt2 h1 ++ ":" ++ fmt2 m
  | none => "10:00"

/-- chat.py's `parsed_time`: regex hit with both the pm and the 12-am
shifts, rendered `"{hour:02d}:{minute:02d}"`; `None` when no digit occurs. -/
def chatParsedTime (msg : String) : Option String :=
  match timeSearchChat msg.toList with
  | some (h, m, ap) =>
    let h1 := if ap = some "pm" ∧ h ≠ 12 then h + 12 else h
    let h2 := if ap = some "am" ∧ h1 = 12 then 0 else h1
    some (fmt2 h2 ++ ":" ++ fmt2 m)
  | none => none

/-! ### `app.py` — the per-message handler -/

/-- Keyword sets of app.py's intent chain, in source order. -/
def hospitalKwsApp : List String := ["hospital", "hospitals", "nearby", "list hospitals"]

/-- See `hospitalKwsApp`. -/
def doctorKwsApp : List String := ["doctor", "doctors", "available", "specialist"]

/-- See `hospitalKwsApp`. -/
def symptomKwsApp : List String :=
  ["pain", "fever", "vomit", "rash", "headache", "ache", "itch", "cough", "breath", "skin"]

/-- See `hospitalKwsApp`. -/
def bookingKwsApp : List String :=
  ["book", "appointment", "yes", "confirm", "on", "pm", "am", "date"]

/-- app.py's intent chain: keyword sets checked in a fixed order, falling
back to the previous turn's intent, else "unknown". -/
def detectIntentApp (msg : String) (lastIntent : Option String) : String :=
  if hospitalKwsApp.any (fun w => strContains msg w) then "hospital_list"
  else if doctorKwsApp.any (fun w => strContains msg w) then "doctor_list"
  else if symptomKwsApp.any (fun w => strContains msg w) then "symptom_analysis"
  else if bookingKwsApp.any (fun w => strContains msg w) then "booking"
  else lastIntent.getD "unknown"

/-- app.py's default-branch capability message. -/
def appHelpMsg : String :=
  "I'm MedBot 🤖 — I can help you with:\n- Listing hospitals 🏥\n- Finding doctors 👩‍⚕️\n- Detecting departments from symptoms 🩺\n- Booking appointments 📅\n\nPlease tell me your **city** or your **symptoms** to begin."

/-- app.py's hospital-list branch. -/
def appHospitalBranch (hs : List Hospital) (city : String) (cityState : Option String)
    (pending : List (String × String)) : TurnOut :=
  let cityHosp := hs.filter fun h => (strLower h.city) == (strLower city)
  if cityHosp = [] then
    ⟨"Sorry, no hospitals found in " ++ city ++ ".",
     ⟨cityState, pending, some "hospital_list"⟩, []⟩
  else
    ⟨(cityHosp.take 5).foldl
        (fun acc h => acc ++ "- **" ++ h.hospitalName ++ "** (" ++ h.department ++ ", ⭐"
          ++ toString h.rating ++ ")\n")
        ("🏥 Hospitals in **" ++ city ++ "**:\n")
      ++ "\nWould you like to book an appointment?",
     ⟨cityState, pending, some "hospital_list"⟩, []⟩

/-- app.py's doctor-list branch.  Department names are non-empty strings,
so Python's truthiness test on the extracted department is `Option` here. -/
def appDoctorBranch (hs : List Hospital) (ds : List Doctor) (city : String)
    (cityState : Option String) (pending : List (String × String)) (msgL : String) :
    Option TurnOut :=
  let dept := match (uniqueDepartments hs).find? fun d => strContains msgL (strLower d) with
    | some d => some d
    | none => dictGet pending "department"
  match dept with
  | none =>
    some ⟨"Please mention which department you'd like to know doctors for.",
          ⟨cityState, pending, some "doctor_list"⟩, []⟩
  | some d =>
    let cityIds := (hs.filter fun h => (strLower h.city) == (strLower city)).map (·.hospitalId)
    let docList := ds.filter fun doc =>
      (strLower doc.department) == (strLower d) && cityIds.contains doc.hospitalId
    if docList = [] then
      some ⟨"Sorry, no doctors found for **" ++ d ++ "** in **" ++ city ++ "**.",
            ⟨cityState, pending, some "doctor_list"⟩, []⟩
    else
      match (docList.take 5).mapM (fun doc =>
          (hs.find? fun h => h.hospitalId == doc.hospitalId).map fun h =>
            "- **" ++ doc.doctorName ++ "** (" ++ h.hospitalName ++ ")\n  🕒 "
              ++ doc.startTime ++ " - " ++ doc.endTime ++ " | 💰 ₹" ++ toString doc.fee ++ "\n") with
      | none => none   -- a dangling hospital_id makes `.iloc[0]` raise
      | some rows =>
        some ⟨rows.foldl (· ++ ·)
                ("👩‍⚕️ Available doctors in **" ++ d ++ "** at **" ++ city ++ "**:\n")
              ++ "\nWould you like to book an appointment?",
              ⟨cityState, [("department", d), ("city", city)], some "doctor_list"⟩, []⟩

/-- app.py's symptom-analysis branch. -/
def appSymptomBranch (hs : List Hospital) (csv : Option (List (String × String)))
    (city : String) (cityState : Option String) (pending : List (String × String))
    (userMessage : String) : TurnOut :=
  let dept := predictDepartmentTf csv userMessage
  let base := "🩺 Based on your symptoms, you should visit the **" ++ dept ++ "** department."
  let results := hs.filter fun h =>
    (strLower h.city) == (strLower city) && (strLower h.department) == (strLower dept)
  if results = [] then
    ⟨base ++ "\nSorry, no hospitals found for " ++ dept ++ " in " ++ city ++ ".",
     ⟨cityState, pending, some "symptom_analysis"⟩, []⟩
  else
    ⟨((sortByRatingDesc results).take 3).foldl
        (fun acc h => acc ++ "- **" ++ h.hospitalName ++ "** (" ++ toString h.rating ++ "⭐)\n")
        (base ++ "\n🏥 Hospitals for **" ++ dept ++ "** in **" ++ city ++ "**:\n")
      ++ "\nWould you like to book an appointment?",
     ⟨cityState, [("department", dept), ("city", city)], some "symptom_analysis"⟩, []⟩

/-- The tail of app.py's booking branch, after the pending city/department
reads and the date handling: hospital filter, top-rated pick, first doctor,
window check, booking. -/
def appBookingFinish (hs : List Hospital) (ds : List Doctor) (u : UserInfo)
    (cityState : Option String) (pending1 : List (String × String))
    (dateStr city dept msg uuidHex : String) : Option TurnOut :=
  let timeStr := appBookingTimeStr msg
  let hosp := matchingHospitals hs city dept
  if hosp = [] then
    some ⟨"Sorry, no hospitals found for " ++ dept ++ " in " ++ city ++ ".",
          ⟨cityState, pending1, some "booking"⟩, []⟩
  else
    match topByRating hosp with
    | none => none
    | some topHosp =>
      match (doctorsFor ds topHosp.hospitalId dept).head? with
      | none => none   -- `.iloc[0]` on an empty doctor selection raises
      | some doctor =>
        match parseTimeHM doctor.startTime, parseTimeHM doctor.endTime, parseTimeHM timeStr with
        | some startT, some endT, some bookT =>
          if ¬(timeLE startT bookT ∧ timeLE bookT endT) then
            some ⟨doctor.doctorName ++ " is available between " ++ fmt12 startT ++ " and "
                    ++ fmt12 endT ++ ".\nPlease choose a time within this window.",
                  ⟨cityState, pending1, some "booking"⟩, []⟩
          else
            some ⟨"✅ Appointment booked with **" ++ doctor.doctorName ++ "** at **"
                    ++ topHosp.hospitalName ++ "**.\n🗓️ Date: **" ++ dateStr
                    ++ "** | ⏰ Time: **" ++ timeStr
                    ++ " hrs**\n\n📄 You can download your receipt below.",
                  ⟨cityState, pending1, some "booking"⟩,
                  [⟨"A" ++ (strUpper uuidHex), u.name, some u.age, some u.gender,
                    topHosp.hospitalName, dept, doctor.doctorName, dateStr, timeStr⟩]⟩
        | _, _, _ => none   -- `strptime` ValueError is uncaught in app.py

/-- app.py's booking branch (entered only when the pending dict is
non-empty).  Reads `pending["city"]`/`pending["department"]` (KeyError —
`none` — if absent), stores the parsed date into the pending dict when
`dateparser` succeeded, then proceeds to `appBookingFinish`.  `parsedDate`
is the `dateparser.parse(msg, PREFER_DATES_FROM future)` oracle, already
`%Y-%m-%d`-formatted; `todayStr` is today's date; `uuidHex` is the
`uuid4().hex[:6]` draw. -/
def appBookingBranch (hs : List Hospital) (ds : List Doctor) (u : UserInfo)
    (cityState : Option String) (pending : List (String × String)) (msg : String)
    (parsedDate : Option String) (todayStr uuidHex : String) : Option TurnOut :=
  match dictGet pending "city", dictGet pending "department" with
  | some city, some dept =>
    match parsedDate with
    | some d =>
      appBookingFinish hs ds u cityState (dictSet pending "date" d) d city dept msg uuidHex
    | none =>
      appBookingFinish hs ds u cityState pending ((dictGet pending "date").getD todayStr)
        city dept msg uuidHex
  | _, _ => none   -- KeyError: the branch reads pending["city"/"department"]

/-- One message-processing pass of app.py's chat loop. -/
def appTurn (hs : List Hospital) (ds : List Doctor) (csv : Option (List (String × String)))
    (u : UserInfo) (st0 : SessState) (userMessage : String)
    (parsedDate : Option String) (todayStr uuidHex : String) : Option TurnOut :=
  let msg := (strLower userMessage)
  let det := detectCity hs msg
  let cityState := match det with | some c => some c | none => st0.city
  let city1 := match det with | some c => c | none => st0.city.getD u.city
  let intent := detectIntentApp msg st0.lastIntent
  if intent = "hospital_list" then some (appHospitalBranch hs city1 cityState st0.pending)
  else if intent = "doctor_list" then appDoctorBranch hs ds city1 cityState st0.pending msg
  else if intent = "symptom_analysis" then
    some (appSymptomBranch hs csv city1 cityState st0.pending userMessage)
  else if intent = "booking" ∧ st0.pending ≠ [] then
    appBookingBranch hs ds u cityState st0.pending msg parsedDate todayStr uuidHex
  else some ⟨appHelpMsg, ⟨cityState, st0.pending, some "unknown"⟩, []⟩

/-- app.py's logout handler: every session key is reset. -/
def appLogoutReset : SessState := ⟨none, [], none⟩

/-! ### `chatbot.py` — the per-message handler -/

/-- chatbot.py's symptom keyword set. -/
def symptomKwsBot : List String :=
  ["pain", "fever", "rash", "ache", "vomit", "dizzy", "cough"]

/-- chatbot.py's intent chain (symptom first, then hospital, doctor,
booking, then the previous intent). -/
def detectIntentBot (msg : String) (lastIntent : Option String) : String :=
  if symptomKwsBot.any (fun w => strContains msg w) then "symptom"
  else if strContains msg "hospital" then "hospital"
  else if strContains msg "doctor" then "doctor"
  else if strContains msg "book" || strContains msg "appointment" then "booking"
  else lastIntent.getD "unknown"

/-- chatbot.py's default-branch message. -/
def botHelpMsg : String :=
  "I'm MedBot 🤖.\nTell me your **symptoms** and I'll predict the right department using AI.\nExample: *I have chest pain and I'm sweating*"

/-- chatbot.py's symptom branch.  `dlDept` is the oracle for
`predict_department` (Bio_ClinicalBERT with an untrained head). -/
def botSymptomBranch (hs : List Hospital) (dlDept city : String) (cityState : Option String) :
    TurnOut :=
  let base := "🩺 Based on your symptoms, you should visit the **" ++ dlDept ++ "** department."
  let results := hs.filter fun h =>
    (strLower h.city) == (strLower city) && (strLower h.department) == (strLower dlDept)
  let resp :=
    if results = [] then base ++ "\nNo hospitals found for " ++ dlDept ++ " in " ++ city ++ "."
    else
      ((sortByRatingDesc results).take 3).foldl
        (fun acc h => acc ++ "- **" ++ h.hospitalName ++ "** (" ++ toString h.rating ++ "⭐)\n")
        (base ++ "\n🏥 Top hospitals for **" ++ dlDept ++ "** in **" ++ city ++ "**:\n")
  ⟨resp, ⟨cityState, [("department", dlDept), ("city", city)], some "symptom"⟩, []⟩

/-- chatbot.py's hospital branch. -/
def botHospitalBranch (hs : List Hospital) (city : String) (cityState : Option String)
    (pending : List (String × String)) : TurnOut :=
  let cityHosp := hs.filter fun h => (strLower h.city) == (strLower city)
  let resp :=
    if cityHosp = [] then "No hospitals found in " ++ city ++ "."
    else
      (cityHosp.take 5).foldl
        (fun acc h => acc ++ "- **" ++ h.hospitalName ++ "** (⭐" ++ toString h.rating ++ ")\n")
        ("🏥 Hospitals in **" ++ city ++ "**:\n")
  ⟨resp, ⟨cityState, pending, some "hospital"⟩, []⟩

/-- chatbot.py's doctor branch (`pending_booking.get("department")`). -/
def botDoctorBranch (hs : List Hospital) (ds : List Doctor) (city : String)
    (cityState : Option String) (pending : List (String × String)) : Option TurnOut :=
  match dictGet pending "department" with
  | none => some ⟨"Please describe your symptoms first.", ⟨cityState, pending, some "doctor"⟩, []⟩
  | some dept =>
    let cityIds := (hs.filter fun h => (strLower h.city) == (strLower city)).map (·.hospitalId)
    let docList := ds.filter fun doc =>
      (strLower doc.department) == (strLower dept) && cityIds.contains doc.hospitalId
    if docList = [] then
      some ⟨"No doctors found for " ++ dept ++ " in " ++ city ++ ".",
            ⟨cityState, pending, some "doctor"⟩, []⟩
    else
      match (docList.take 5).mapM (fun doc =>
          (hs.find? fun h => h.hospitalId == doc.hospitalId).map fun h =>
            "- **" ++ doc.doctorName ++ "** (" ++ h.hospitalName ++ ")\n  🕒 "
              ++ doc.startTime ++ " - " ++ doc.endTime ++ " | ₹" ++ toString doc.fee ++ "\n") with
      | none => none
      | some rows =>
        some ⟨rows.foldl (· ++ ·)
                ("👩‍⚕️ Doctors in **" ++ dept ++ "** at **" ++ city ++ "**:\n"),
              ⟨cityState, pending, some "doctor"⟩, []⟩

/-- chatbot.py's booking branch: no availability-window test is performed;
it never clears the pending dict. -/
def botBookingBranch (hs : List Hospital) (ds : List Doctor) (u : UserInfo) (city : String)
    (cityState : Option String) (pending : List (String × String)) (msgL : String)
    (parsedDate : Option String) (todayStr uuidHex : String) : Option TurnOut :=
  match dictGet pending "department" with
  | none => none   -- KeyError: the branch reads pending_booking["department"]
  | some dept =>
    let dateStr := parsedDate.getD todayStr
    let timeStr := (timeSearchBot msgL.toList).getD "10:00"
    let hosp := matchingHospitals hs city dept
    if hosp = [] then
      some ⟨"", ⟨cityState, pending, some "booking"⟩, []⟩   -- response stays empty
    else
      match topByRating hosp with
      | none => none
      | some top =>
        match (doctorsFor ds top.hospitalId dept).head? with
        | none => none   -- `.iloc[0]` on an empty doctor selection raises
        | some doctor =>
          some ⟨"✅ Appointment booked with **" ++ doctor.doctorName ++ "** at **"
                  ++ top.hospitalName ++ "**.\n🗓️ " ++ dateStr ++ " | ⏰ " ++ timeStr
                  ++ "\nDownload your receipt below.",
                ⟨cityState, pending, some "booking"⟩,
                [⟨"A" ++ (strUpper uuidHex), u.name, some u.age, some u.gender,
                  top.hospitalName, dept, doctor.doctorName, dateStr, timeStr⟩]⟩

/-- One message-processing pass of chatbot.py.  The local `city` starts
from the user's profile city (the session city is written but never read
back by this script). -/
def botTurn (hs : List Hospital) (ds : List Doctor) (dlDept : String) (u : UserInfo)
    (st0 : SessState) (userMessage : String) (parsedDate : Option String)
    (todayStr uuidHex : String) : Option TurnOut :=
  let msg := (strLower userMessage)
  let det := detectCity hs msg
  let city := det.getD u.city
  let cityState := match det with | some c => some c | none => st0.city
  let intent := detectIntentBot msg st0.lastIntent
  if intent = "symptom" then some (botSymptomBranch hs dlDept city cityState)
  else if intent = "hospital" then some (botHospitalBranch hs city cityState st0.pending)
  else if intent = "doctor" then botDoctorBranch hs ds city cityState st0.pending
  else if intent = "booking" ∧ st0.pending ≠ [] then
    botBookingBranch hs ds u city cityState st0.pending msg parsedDate todayStr uuidHex
  else some ⟨botHelpMsg, ⟨cityState, st0.pending, some "unknown"⟩, []⟩

/-- chatbot.py's logout handler (`st.session_state.clear()`). -/
def botLogoutReset : SessState := ⟨none, [], none⟩

/-! ### `chat.py` — the per-message handler -/

/-- chat.py's greeting keyword set. -/
def greetKwsChat : List String := ["hi", "hello", "hey", "good morning", "good evening"]

/-- chat.py's symptom keyword set. -/
def symptomKwsChat : List String :=
  ["fever", "pain", "headache", "vomit", "cough", "rash", "nausea", "dizziness", "migraine"]

/-- chat.py's booking keyword set. -/
def bookingKwsChat : List String := ["book", "appointment", "schedule", "reserve"]

/-- chat.py's doctor-listing keyword set. -/
def doctorKwsChat : List String :=
  ["who is", "which doctors", "doctors in", "available doctors", "list doctors"]

/-- chat.py's hospital-listing keyword set. -/
def hospitalKwsChat : List String := ["hospital", "hospitals", "nearby"]

/-- chat.py's symptom branch.  `medReplySym` is the oracle for
`medbot_reply` (sentiment pipeline plus DialoGPT, or its template). -/
def chatSymptomBranch (hs : List Hospital) (csv : Option (List (String × String)))
    (u : UserInfo) (cityState : Option String) (lastIntent : Option String)
    (msg medReplySym : String) : TurnOut :=
  let dept := predictDepartmentTf csv msg
  let cityFor := cityState.getD u.city
  let pending1 := [("department", dept), ("city", cityFor)]
  let found := hs.filter fun h =>
    (strLower h.city) == (strLower cityFor) && (strLower h.department) == (strLower dept)
  let head := "🩺 " ++ medReplySym ++ "\n\n"
  if found = [] then
    ⟨head ++ "\nI couldn't find hospitals for " ++ dept ++ " in " ++ cityFor ++ ".",
     ⟨cityState, pending1, lastIntent⟩, []⟩
  else
    ⟨((sortByRatingDesc found).take 5).foldl
        (fun acc r => acc ++ "- **" ++ r.hospitalName ++ "** (" ++ toString r.rating ++ "⭐)\n")
        (head ++ "🏥 Hospitals for **" ++ dept ++ "** in **" ++ cityFor ++ "**:\n")
      ++ "\nWould you like to book an appointment at one of these?",
     ⟨cityState, pending1, lastIntent⟩, []⟩

/-- chat.py's booking branch.  A booking is created on the validated path
(window check passes) — which clears the pending dict — and on the
`except` path (a `strptime` call raised), which books without the window
check and leaves the pending dict; the missing-date/time prompt stores a
`hospital_id` key into the pending dict. -/
def chatBookingBranch (hs : List Hospital) (ds : List Doctor) (u : UserInfo)
    (st0 : SessState) (cityState : Option String) (msgL : String)
    (parsedDate parsedTime : Option String) (uuidHex : String) : Option TurnOut :=
  let selHosp := ((uniqueHospitalNames hs).find? fun hn => strContains msgL (strLower hn)).bind
    fun hn => hs.find? fun h => (strLower h.hospitalName) == (strLower hn)
  let bookingInfo1 := match selHosp with
    | some h => dictSet st0.pending "city" h.city
    | none => st0.pending
  let bookingInfo2 := match (uniqueDepartments hs).find? (fun d => strContains msgL (strLower d)) with
    | some d => dictSet bookingInfo1 "department" d
    | none => bookingInfo1
  match dictGet bookingInfo2 "department" with
  | none =>
    some ⟨"I need the department and city to book. Please tell me what department (e.g., Cardiology) and your city.",
          ⟨cityState, st0.pending, st0.lastIntent⟩, []⟩
  | some department =>
    let citySearch := (dictGet bookingInfo2 "city").getD (cityState.getD u.city)
    let hospMatches := matchingHospitals hs citySearch department
    if hospMatches = [] then
      some ⟨"Sorry, I couldn't find any " ++ department ++ " hospitals in " ++ citySearch ++ ".",
            ⟨cityState, st0.pending, st0.lastIntent⟩, []⟩
    else
      match (match selHosp with | some h => some h | none => topByRating hospMatches) with
      | none => none
      | some chosen =>
        match (doctorsFor ds chosen.hospitalId department).head? with
        | none =>
          some ⟨"Sorry — no doctors listed for " ++ department ++ " at "
                  ++ chosen.hospitalName ++ ".",
                ⟨cityState, st0.pending, st0.lastIntent⟩, []⟩
        | some doc =>
          match parsedDate, parsedTime with
          | some dateStr, some timeS =>
            match parseTimeHM doc.startTime, parseTimeHM doc.endTime, parseTimeHM timeS with
            | some startT, some endT, some reqT =>
              if ¬(timeLE startT reqT ∧ timeLE reqT endT) then
                some ⟨"⚠️ Dr. " ++ doc.doctorName ++ " is available between " ++ fmt12 startT
                        ++ " and " ++ fmt12 endT ++ ". Please pick a time in that range.",
                      ⟨cityState, st0.pending, st0.lastIntent⟩, []⟩
              else
                some ⟨"✅ Appointment booked with **" ++ doc.doctorName ++ "** at **"
                        ++ chosen.hospitalName ++ "**.\n📅 " ++ dateStr ++ "  ⏰ " ++ timeS
                        ++ "\n\nYou can download your receipt below.",
                      ⟨cityState, [], st0.lastIntent⟩,
                      [⟨"A" ++ (strUpper uuidHex), u.name, some u.age, some u.gender,
                        chosen.hospitalName, department, doc.doctorName, dateStr, timeS⟩]⟩
            | _, _, _ =>
              some ⟨"✅ Appointment booked with **" ++ doc.doctorName ++ "** at **"
                      ++ chosen.hospitalName ++ "**.\n📅 " ++ dateStr ++ "  ⏰ " ++ timeS
                      ++ "\n\nYou can download your receipt below.",
                    ⟨cityState, st0.pending, st0.lastIntent⟩,
                    [⟨"A" ++ (strUpper uuidHex), u.name, none, none,
                      chosen.hospitalName, department, doc.doctorName, dateStr, timeS⟩]⟩
          | _, _ =>
            some ⟨"Please provide the "
                    ++ String.intercalate " and "
                        ((if parsedDate = none then ["date"] else [])
                          ++ (if parsedTime = none then ["time"] else []))
                    ++ " for the appointment (e.g., 'Dec 15 at 2 PM').",
                  ⟨cityState,
                   dictSet (dictSet (dictSet st0.pending "hospital_id"
                       (toString chosen.hospitalId)) "department" department) "city" citySearch,
                   st0.lastIntent⟩, []⟩

/-- chat.py's doctor-listing branch. -/
def chatDoctorBranch (hs : List Hospital) (ds : List Doctor) (u : UserInfo)
    (cityState : Option String) (pending : List (String × String))
    (lastIntent : Option String) (msgL : String) : Option TurnOut :=
  let dept := match (uniqueDepartments hs).find? fun d => strContains msgL (strLower d) with
    | some d => some d
    | none => if pending = [] then none else dictGet pending "department"
  match dept with
  | none =>
    some ⟨"Which department do you want doctors for? (e.g., Cardiology, Neurology)",
          ⟨cityState, pending, lastIntent⟩, []⟩
  | some d =>
    let citySearch := cityState.getD u.city
    let cityIds := (hs.filter fun h => (strLower h.city) == (strLower citySearch)).map (·.hospitalId)
    let docs := ds.filter fun doc =>
      (strLower doc.department) == (strLower d) && cityIds.contains doc.hospitalId
    if docs = [] then
      some ⟨"No doctors found for " ++ d ++ " in " ++ citySearch ++ ".",
            ⟨cityState, pending, lastIntent⟩, []⟩
    else
      match (docs.take 10).mapM (fun doc =>
          (hs.find? fun h => h.hospitalId == doc.hospitalId).map fun h =>
            "- **" ++ doc.doctorName ++ "** (" ++ h.hospitalName ++ ") • " ++ doc.startTime
              ++ "-" ++ doc.endTime ++ " • ₹" ++ toString doc.fee ++ "\n") with
      | none => none
      | some rows =>
        some ⟨rows.foldl (· ++ ·)
                ("👩‍⚕️ Doctors for **" ++ d ++ "** in **" ++ citySearch ++ "**:\n")
              ++ "\nWould you like to book an appointment with one of them?",
              ⟨cityState, [("department", d), ("city", citySearch)], lastIntent⟩, []⟩

/-- chat.py's hospital-listing branch. -/
def chatHospitalBranch (hs : List Hospital) (u : UserInfo) (cityState : Option String)
    (pending : List (String × String)) (lastIntent : Option String) : TurnOut :=
  let citySearch := cityState.getD u.city
  if citySearch = "" then
    ⟨"Please tell me your city to find nearby hospitals (e.g., 'I'm in Kochi').",
     ⟨cityState, pending, lastIntent⟩, []⟩
  else
    let found := hs.filter fun h => (strLower h.city) == (strLower citySearch)
    if found = [] then
      ⟨"No hospitals found in " ++ citySearch ++ ".", ⟨cityState, pending, lastIntent⟩, []⟩
    else
      ⟨(found.take 10).foldl
          (fun acc r => acc ++ "- **" ++ r.hospitalName ++ "** (" ++ r.department ++ ", ⭐"
            ++ toString r.rating ++ ")\n")
          ("🏥 Hospitals available in **" ++ citySearch ++ "**:\n")
        ++ "\nWould you like to book an appointment at one of them?",
       ⟨cityState, pending, lastIntent⟩, []⟩

/-- One message-processing pass of chat.py.  chat.py computes a local
`intent` but never writes `st.session_state.last_intent`, so the stored
last intent passes through unchanged.  `medReplySym`/`medReplyGen` are the
`medbot_reply` oracles for the symptom and fallback branches. -/
def chatTurn (hs : List Hospital) (ds : List Doctor) (csv : Option (List (String × String)))
    (u : UserInfo) (st0 : SessState) (userInput : String)
    (parsedDate : Option String) (uuidHex medReplySym medReplyGen : String) : Option TurnOut :=
  let msg := (strTrim userInput)
  let msgL := (strLower msg)
  let det := detectCity hs msgL
  let cityState := match det with | some c => some c | none => st0.city
  if greetKwsChat.any (fun w => strContains msgL w) then
    some ⟨"👋 Hello " ++ u.name ++ "! I'm MedBot — I can help find hospitals, list doctors, analyze symptoms, and assist with booking appointments. Tell me your city or symptoms to begin.",
          ⟨cityState, st0.pending, st0.lastIntent⟩, []⟩
  else if symptomKwsChat.any (fun w => strContains msgL w) then
    some (chatSymptomBranch hs csv u cityState st0.lastIntent msg medReplySym)
  else if bookingKwsChat.any (fun w => strContains msgL w) then
    chatBookingBranch hs ds u st0 cityState msgL parsedDate (chatParsedTime msg) uuidHex
  else if doctorKwsChat.any (fun w => strContains msgL w) then
    chatDoctorBranch hs ds u cityState st0.pending st0.lastIntent msgL
  else if hospitalKwsChat.any (fun w => strContains msgL w) then
    some (chatHospitalBranch hs u cityState st0.pending st0.lastIntent)
  else
    some ⟨medReplyGen, ⟨cityState, st0.pending, st0.lastIntent⟩, []⟩

/-- chat.py's Clear Conversation button (the session city survives). -/
def chatClearConversation (s : SessState) : SessState := ⟨s.city, [], none⟩

/-- chat.py's logout handler (the session city key is not reset). -/
def chatLogoutReset (s : SessState) : SessState := ⟨s.city, [], none⟩

/-! ### Claim-side definitions (stated from the spec's words, for
comparison with the source embedding) -/

/-- Resolver stage (a): exact substring match of a known symptom phrase. -/
def stageSubstring (tbl : List (String × String)) (text : String) : Option String :=
  (tbl.find? fun row => strContains text (strLower row.fst)).map (·.snd)

/-- Resolver stage (b): fuzzy similarity match above the 0.4 cutoff. -/
def stageFuzzy (tbl : List (String × String)) (text : String) : Option String :=
  (getCloseMatches1 text (tbl.map fun r => (strLower r.fst))).bind fun closest =>
    (tbl.find? fun r => (strLower r.fst) = closest).map (·.snd)

/-- Resolver stage (c): the fixed keyword-to-department table. -/
def stageKeywordTable (text : String) : Option String :=
  (symptomMap.find? fun p => p.snd.any fun kw => strContains text kw).map (·.fst)

/-- Modelled from the claim: the resolver tries (a) substring, (b) fuzzy,
(c) keyword table, (d) the default label, returning the first stage that
matches. -/
def resolverPolicyClaimed (tbl : List (String × String)) (input : String) : String :=
  let text := (strLower input)
  (((stageSubstring tbl text).orElse fun _ =>
      (stageFuzzy tbl text).orElse fun _ => stageKeywordTable text)).getD "General Medicine"

/-- The amended resolver policy: with the CSV present the cascade is
(a) substring, (b) fuzzy, (d) default — the keyword table is never
consulted; with the CSV missing the cascade is (c) keyword table,
(d) default — substring and fuzzy are skipped. -/
def resolverPolicyAmended (csv : Option (List (String × String))) (input : String) : String :=
  match csv with
  | some tbl =>
    let text := (strLower input)
    ((stageSubstring tbl text).orElse fun _ => stageFuzzy tbl text).getD "General Medicine"
  | none => (stageKeywordTable (strLower input)).getD "General Medicine"

/-- Greatest index at which `nee` occurs in `hay` (last mention). -/
def subIdxLast (hay nee : List Char) : Option Nat :=
  (List.range (hay.length + 1)).foldl
    (fun acc i => if leadsWith nee (hay.drop i) then some i else acc) none

/-- Modelled from the claim: when several known cities occur in one
message, the one whose (last) mention starts latest wins. -/
def lastMentionedCity (hs : List Hospital) (msgL : String) : Option String :=
  (((uniqueCities hs).filterMap fun c =>
      (subIdxLast msgL.toList (strLower c).toList).map fun i => (i, c)).foldl
    (fun best p =>
      match best with
      | none => some p
      | some q => if q.fst < p.fst then some p else some q)
    none).map (·.snd)

/-- The slot-key alphabet named by the claim. -/
def slotKeysClaimed : List String := ["department", "city", "hospital", "date", "time"]

/-- The slot-key alphabet the code actually uses (note `hospital_id`, from
chat.py's missing-date/time prompt, and the absence of `hospital`/`time`). -/
def slotKeysAmended : List String := ["department", "city", "hospital_id", "date"]

/-! ### Concrete fixtures used by witnesses and counterexamples -/

/-- The demo login user shared by all three scripts. -/
def demoUser : UserInfo := ⟨"Demo User", 25, "Male", "Kochi"⟩

/-- A one-hospital catalog: Cardiology in Kochi, rating 4.5⭐ (= 45). -/
def hsA : List Hospital := [⟨1, "Apollo", "Kochi", "Cardiology", 45⟩]

/-- One cardiologist at `hsA`'s hospital, available 09:00–17:00. -/
def dsA : List Doctor := [⟨1, "Dr. Arun", 1, "Cardiology", 500, "09:00", "17:00"⟩]

/-- A two-city catalog whose table order is Chennai before Kochi. -/
def hsB : List Hospital :=
  [⟨1, "Fortis", "Chennai", "Neurology", 40⟩, ⟨2, "Apollo", "Kochi", "Cardiology", 45⟩]

/-- Two-department Kochi catalog (Cardiology and Dermatology). -/
def hsC : List Hospital :=
  [⟨1, "Apollo", "Kochi", "Cardiology", 45⟩, ⟨2, "Rainbow", "Kochi", "Dermatology", 40⟩]

/-- Two Kochi Cardiology hospitals: Apollo rated 4.5⭐, Carewell 3.0⭐. -/
def hsD : List Hospital :=
  [⟨1, "Apollo", "Kochi", "Cardiology", 45⟩, ⟨2, "Carewell", "Kochi", "Cardiology", 30⟩]

/-- One cardiologist per `hsD` hospital, both available 09:00–17:00. -/
def dsD : List Doctor :=
  [⟨1, "Dr. Arun", 1, "Cardiology", 500, "09:00", "17:00"⟩,
   ⟨2, "Dr. Binu", 2, "Cardiology", 400, "09:00", "17:00"⟩]

/-- A session holding a filled department/city pending dict. -/
def stPend : SessState :=
  ⟨some "Kochi", [("department", "Cardiology"), ("city", "Kochi")], some "symptom_analysis"⟩

/-! ### Helper lemmas -/

theorem dictGet_dictSet_self (d : List (String × String)) (k v : String) :
    dictGet (dictSet d k v) k = some v := by
  induction d with
  | nil => simp [dictSet, dictGet]
  | cons p t ih =>
    by_cases hk : p.fst = k
    · simp [dictSet, hk, dictGet]
    · simp [dictSet, hk, dictGet, ih]

theorem dictGet_dictSet_ne (d : List (String × String)) (k v k' : String) (hne : k' ≠ k) :
    dictGet (dictSet d k v) k' = dictGet d k' := by
  induction d with
  | nil => simp [dictSet, dictGet, Ne.symm hne]
  | cons p t ih =>
    obtain ⟨a, b⟩ := p
    by_cases hk : a = k
    · subst hk
      have h1 : a ≠ k' := fun h => hne h.symm
      simp [dictSet, dictGet, h1]
    · simp only [dictSet, if_neg hk]
      by_cases hk' : a = k'
      · simp [dictGet, hk']
      · simp [dictGet, hk', ih]

theorem dictKeys_dictSet (d : List (String × String)) (k v : String) (x : String)
    (hx : x ∈ dictKeys (dictSet d k v)) : x = k ∨ x ∈ dictKeys d := by
  induction d with
  | nil => simpa [dictSet, dictKeys] using hx
  | cons p t ih =>
    obtain ⟨a, b⟩ := p
    by_cases hk : a = k
    · subst hk
      simp [dictSet, dictKeys] at hx ⊢
      tauto
    · simp only [dictSet, if_neg hk, dictKeys, List.map_cons, List.mem_cons] at hx ⊢
      rcases hx with rfl | hx
      · tauto
      · rcases ih hx with h | h <;> tauto

theorem find?_decomp {α : Type} (p : α → Bool) (l : List α) (a : α) (h : l.find? p = some a) :
    p a = true ∧ ∃ pre post, l = pre ++ a :: post ∧ ∀ x ∈ pre, p x = false := by
  induction l with
  | nil => simp [List.find?] at h
  | cons x xs ih =>
    cases hp : p x with
    | false =>
      rw [List.find?_cons_of_neg _ (by simp [hp])] at h
      obtain ⟨hpa, pre, post, rfl, hpre⟩ := ih h
      refine ⟨hpa, x :: pre, post, rfl, ?_⟩
      intro y hy
      rcases List.mem_cons.mp hy with rfl | hy
      · exact hp
      · exact hpre y hy
    | true =>
      rw [List.find?_cons_of_pos _ hp] at h
      obtain rfl := Option.some.inj h
      exact ⟨hp, [], xs, rfl, by simp⟩

theorem topByRating_isSome (l : List Hospital) (hne : l ≠ []) :
    ∃ x, topByRating l = some x := by
  cases l with
  | nil => exact absurd rfl hne
  | cons y ys =>
    simp only [topByRating]
    cases topByRating ys with
    | none => exact ⟨y, rfl⟩
    | some b => by_cases hlt : y.rating < b.rating <;> simp [hlt]

theorem topByRating_mem (l : List Hospital) (x : Hospital) (h : topByRating l = some x) :
    x ∈ l := by
  induction l generalizing x with
  | nil => simp [topByRating] at h
  | cons y ys ih =>
    simp only [topByRating] at h
    cases ht : topByRating ys with
    | none =>
      simp only [ht] at h
      exact (Option.some.inj h) ▸ List.mem_cons_self _ _
    | some b =>
      simp only [ht] at h
      by_cases hlt : y.rating < b.rating
      · simp only [if_pos hlt] at h
        obtain rfl := Option.some.inj h
        exact List.mem_cons_of_mem _ (ih _ ht)
      · simp only [if_neg hlt] at h
        exact (Option.some.inj h) ▸ List.mem_cons_self _ _

theorem topByRating_max (l : List Hospital) (x : Hospital) (h : topByRating l = some x) :
    ∀ y ∈ l, y.rating ≤ x.rating := by
  induction l generalizing x with
  | nil => simp [topByRating] at h
  | cons y ys ih =>
    simp only [topByRating] at h
    intro z hz
    cases ht : topByRating ys with
    | none =>
      simp only [ht] at h
      obtain rfl := Option.some.inj h
      rcases List.mem_cons.mp hz with rfl | hz
      · exact le_refl _
      · exfalso
        obtain ⟨t, httop⟩ := topByRating_isSome ys (by rintro rfl; simp at hz)
        rw [httop] at ht
        cases ht
    | some b =>
      simp only [ht] at h
      rcases List.mem_cons.mp hz with rfl | hz
      · by_cases hlt : z.rating < b.rating
        · simp only [if_pos hlt] at h
          obtain rfl := Option.some.inj h
          exact le_of_lt hlt
        · simp only [if_neg hlt] at h
          obtain rfl := Option.some.inj h
          exact le_refl _
      · by_cases hlt : y.rating < b.rating
        · simp only [if_pos hlt] at h
          obtain rfl := Option.some.inj h
          exact ih _ ht z hz
        · simp only [if_neg hlt] at h
          obtain rfl := Option.some.inj h
          exact le_trans (ih _ ht z hz) (not_lt.mp hlt)

/-! ### Per-turn characterization lemmas -/

theorem appTurn_city (hs : List Hospital) (ds : List Doctor)
    (csv : Option (List (String × String))) (u : UserInfo) (st0 : SessState)
    (um : String) (pd : Option String) (td ux : String) (out : TurnOut)
    (h : appTurn hs ds csv u st0 um pd td ux = some out) :
    out.state.city = match detectCity hs (strLower um) with
      | some c => some c
      | none => st0.city := by
  simp only [appTurn, appHospitalBranch, appDoctorBranch, appSymptomBranch,
    appBookingBranch, appBookingFinish] at h
  repeat' split at h
  all_goals first
    | (injection h with h; subst h)
    | injection h
  all_goals simp_all

theorem appTurn_pending_shapes (hs : List Hospital) (ds : List Doctor)
    (csv : Option (List (String × String))) (u : UserInfo) (st0 : SessState)
    (um : String) (pd : Option String) (td ux : String) (out : TurnOut)
    (h : appTurn hs ds csv u st0 um pd td ux = some out) :
    out.state.pending = st0.pending
      ∨ (∃ d c, out.state.pending = [("department", d), ("city", c)])
      ∨ ∃ v, out.state.pending = dictSet st0.pending "date" v := by
  simp only [appTurn, appHospitalBranch, appDoctorBranch, appSymptomBranch,
    appBookingBranch, appBookingFinish] at h
  repeat' split at h
  all_goals first
    | (injection h with h; subst h)
    | injection h
  all_goals first
    | exact Or.inl rfl
    | exact Or.inr (Or.inl ⟨_, _, rfl⟩)
    | exact Or.inr (Or.inr ⟨_, rfl⟩)

theorem appTurn_bookings_time (hs : List Hospital) (ds : List Doctor)
    (csv : Option (List (String × String))) (u : UserInfo) (st0 : SessState)
    (um : String) (pd : Option String) (td ux : String) (out : TurnOut)
    (h : appTurn hs ds csv u st0 um pd td ux = some out) :
    ∀ b ∈ out.bookings, b.time = appBookingTimeStr (strLower um) := by
  simp only [appTurn, appHospitalBranch, appDoctorBranch, appSymptomBranch,
    appBookingBranch, appBookingFinish] at h
  repeat' split at h
  all_goals first
    | (injection h with h; subst h)
    | injection h
  all_goals intro b hb
  all_goals first
    | exact absurd hb (List.not_mem_nil b)
    | (simp only [List.mem_singleton] at hb; subst hb; rfl)

theorem dictSet_ne_nil (d : List (String × String)) (k v : String) :
    dictSet d k v ≠ [] := by
  cases d with
  | nil => simp [dictSet]
  | cons p t =>
    by_cases hk : p.fst = k <;> simp [dictSet, hk]

theorem botTurn_pending_shapes (hs : List Hospital) (ds : List Doctor) (dl : String)
    (u : UserInfo) (st0 : SessState) (um : String) (pd : Option String)
    (td ux : String) (out : TurnOut)
    (h : botTurn hs ds dl u st0 um pd td ux = some out) :
    out.state.pending = st0.pending
      ∨ ∃ d c, out.state.pending = [("department", d), ("city", c)] := by
  simp only [botTurn, botSymptomBranch, botHospitalBranch, botDoctorBranch,
    botBookingBranch] at h
  repeat' split at h
  all_goals first
    | (injection h with h; subst h)
    | injection h
  all_goals first
    | exact Or.inl rfl
    | exact Or.inr ⟨_, _, rfl⟩

theorem botTurn_bookings_time (hs : List Hospital) (ds : List Doctor) (dl : String)
    (u : UserInfo) (st0 : SessState) (um : String) (pd : Option String)
    (td ux : String) (out : TurnOut)
    (h : botTurn hs ds dl u st0 um pd td ux = some out) :
    ∀ b ∈ out.bookings, b.time = (timeSearchBot (strLower um).toList).getD "10:00" := by
  simp only [botTurn, botSymptomBranch, botHospitalBranch, botDoctorBranch,
    botBookingBranch] at h
  repeat' split at h
  all_goals first
    | (injection h with h; subst h)
    | injection h
  all_goals intro b hb
  all_goals first
    | exact absurd hb (List.not_mem_nil b)
    | (simp only [List.mem_singleton] at hb; subst hb; rfl)

theorem chatTurn_pending_shapes (hs : List Hospital) (ds : List Doctor)
    (csv : Option (List (String × String))) (u : UserInfo) (st0 : SessState)
    (ui : String) (pd : Option String) (ux mrs mrg : String) (out : TurnOut)
    (h : chatTurn hs ds csv u st0 ui pd ux mrs mrg = some out) :
    out.state.pending = st0.pending
      ∨ (∃ d c, out.state.pending = [("department", d), ("city", c)])
      ∨ out.state.pending = []
      ∨ ∃ v d c, out.state.pending
          = dictSet (dictSet (dictSet st0.pending "hospital_id" v) "department" d) "city" c := by
  simp only [chatTurn, chatSymptomBranch, chatBookingBranch, chatDoctorBranch,
    chatHospitalBranch] at h
  repeat' split at h
  all_goals first
    | (injection h with h; subst h)
    | injection h
  all_goals first
    | exact Or.inl rfl
    | exact Or.inr (Or.inl ⟨_, _, rfl⟩)
    | exact Or.inr (Or.inr (Or.inl rfl))
    | exact Or.inr (Or.inr (Or.inr ⟨_, _, _, rfl⟩))

theorem chatTurn_no_time_no_booking (hs : List Hospital) (ds : List Doctor)
    (csv : Option (List (String × String))) (u : UserInfo) (st0 : SessState)
    (ui : String) (pd : Option String) (ux mrs mrg : String) (out : TurnOut)
    (hT : chatParsedTime (strTrim ui) = none)
    (h : chatTurn hs ds csv u st0 ui pd ux mrs mrg = some out) :
    out.bookings = [] := by
  simp only [chatTurn, chatSymptomBranch, chatBookingBranch, chatDoctorBranch,
    chatHospitalBranch] at h
  repeat' split at h
  all_goals first
    | (injection h with h; subst h)
    | injection h
  all_goals first
    | rfl
    | simp_all

/-! ### Claim theorems -/

/-- C1 (amended): in the app.py variant, a booking turn whose requested
time parses but falls outside the matched doctor's [start, end] window
creates no booking record, answers with the window boundaries, and leaves
the pending slots un-reset; the chatbot.py variant performs no
availability check at all (see the counterexample). -/
theorem C1_theorem (hs : List Hospital) (ds : List Doctor)
    (csv : Option (List (String × String))) (u : UserInfo) (st0 : SessState)
    (um : String) (pd : Option String) (td ux : String)
    (city dept : String) (topH : Hospital) (doctor : Doctor) (sT eT bT : Nat × Nat)
    (hIntent : detectIntentApp (strLower um) st0.lastIntent = "booking")
    (hPend : st0.pending ≠ [])
    (hCity : dictGet st0.pending "city" = some city)
    (hDept : dictGet st0.pending "department" = some dept)
    (hTop : topByRating (matchingHospitals hs city dept) = some topH)
    (hDoc : (doctorsFor ds topH.hospitalId dept).head? = some doctor)
    (hS : parseTimeHM doctor.startTime = some sT)
    (hE : parseTimeHM doctor.endTime = some eT)
    (hB : parseTimeHM (appBookingTimeStr (strLower um)) = some bT)
    (hOut : ¬(timeLE sT bT ∧ timeLE bT eT)) :
    ∃ out, appTurn hs ds csv u st0 um pd td ux = some out
      ∧ out.response = doctor.doctorName ++ " is available between " ++ fmt12 sT ++ " and "
          ++ fmt12 eT ++ ".\nPlease choose a time within this window."
      ∧ out.bookings = [] ∧ out.state.pending ≠ [] := by
  have hne : matchingHospitals hs city dept ≠ [] := by
    intro he
    rw [he] at hTop
    simp [topByRating] at hTop
  simp only [appTurn, hIntent]
  rw [if_neg (show ¬(("booking" : String) = "hospital_list") from by decide),
      if_neg (show ¬(("booking" : String) = "doctor_list") from by decide),
      if_neg (show ¬(("booking" : String) = "symptom_analysis") from by decide),
      if_pos (show True ∧ st0.pending ≠ [] from ⟨trivial, hPend⟩)]
  simp only [appBookingBranch, hCity, hDept]
  cases pd with
  | none =>
    simp only [appBookingFinish, if_neg hne, hTop, hDoc, hS, hE, hB, if_pos hOut]
    exact ⟨_, rfl, rfl, rfl, hPend⟩
  | some d =>
    simp only [appBookingFinish, if_neg hne, hTop, hDoc, hS, hE, hB, if_pos hOut]
    exact ⟨_, rfl, rfl, rfl, dictSet_ne_nil _ _ _⟩

/-- C1 witness: `hsA`/`dsA` with pending Cardiology/Kochi and the message
"book at 8:30"; 8:30 is before Dr. Arun's 09:00 opening. -/
theorem C1_witness :
    (¬(timeLE (9, 0) (8, 30) ∧ timeLE (8, 30) (17, 0)))
      ∧ ∃ out, appTurn hsA dsA none demoUser stPend "book at 8:30" none "2026-10-12" "ab12cd"
            = some out
          ∧ out.response = (⟨1, "Dr. Arun", 1, "Cardiology", 500, "09:00", "17:00"⟩ : Doctor).doctorName
              ++ " is available between " ++ fmt12 (9, 0) ++ " and " ++ fmt12 (17, 0)
              ++ ".\nPlease choose a time within this window."
          ∧ out.bookings = [] ∧ out.state.pending ≠ [] :=
  ⟨by decide,
   C1_theorem hsA dsA none demoUser stPend "book at 8:30" none "2026-10-12" "ab12cd"
     "Kochi" "Cardiology" ⟨1, "Apollo", "Kochi", "Cardiology", 45⟩
     ⟨1, "Dr. Arun", 1, "Cardiology", 500, "09:00", "17:00"⟩ (9, 0) (17, 0) (8, 30)
     (by decide) (by decide) (by decide) (by decide) (by decide) (by decide)
     (by decide) (by decide) (by decide) (by decide)⟩

/-- C1 counterexample: chatbot.py books at 8:30 although the selected
doctor's window starts at 09:00 — no availability check exists there. -/
theorem C1_counterexample :
    (botTurn hsA dsA "X" demoUser
        ⟨some "Kochi", [("department", "Cardiology"), ("city", "Kochi")], some "symptom"⟩
        "book at 8:30" none "2026-10-12" "ab12cd").map
        (fun o => o.bookings.map fun b => (b.time, b.doctor))
      = some [("8:30", "Dr. Arun")]
    ∧ parseTimeHM "8:30" = some (8, 30)
    ∧ parseTimeHM "09:00" = some (9, 0)
    ∧ timeLE (9, 0) (8, 30) = false :=
  ⟨rfl, rfl, rfl, rfl⟩

/-- C2 (amended): an in-window booking turn in app.py creates exactly one
booking record whose identifier is `"A"` followed by the uppercased uuid
draw; identifiers from two turns differ whenever the uppercased draws
differ — but the code never checks this, so identical draws yield
identical identifiers (see the counterexample). -/
theorem C2_theorem (hs : List Hospital) (ds : List Doctor)
    (csv : Option (List (String × String))) (u : UserInfo) (st0 : SessState)
    (um : String) (pd : Option String) (td ux : String)
    (city dept : String) (topH : Hospital) (doctor : Doctor) (sT eT bT : Nat × Nat)
    (hIntent : detectIntentApp (strLower um) st0.lastIntent = "booking")
    (hPend : st0.pending ≠ [])
    (hCity : dictGet st0.pending "city" = some city)
    (hDept : dictGet st0.pending "department" = some dept)
    (hTop : topByRating (matchingHospitals hs city dept) = some topH)
    (hDoc : (doctorsFor ds topH.hospitalId dept).head? = some doctor)
    (hS : parseTimeHM doctor.startTime = some sT)
    (hE : parseTimeHM doctor.endTime = some eT)
    (hB : parseTimeHM (appBookingTimeStr (strLower um)) = some bT)
    (hIn : timeLE sT bT ∧ timeLE bT eT) :
    (∃ out, appTurn hs ds csv u st0 um pd td ux = some out
        ∧ out.bookings.map Booking.bookingId = ["A" ++ strUpper ux])
      ∧ ∀ u1 u2 : String, strUpper u1 ≠ strUpper u2
          → ("A" ++ strUpper u1 : String) ≠ "A" ++ strUpper u2 := by
  have hne : matchingHospitals hs city dept ≠ [] := by
    intro he
    rw [he] at hTop
    simp [topByRating] at hTop
  constructor
  · simp only [appTurn, hIntent]
    rw [if_neg (show ¬(("booking" : String) = "hospital_list") from by decide),
        if_neg (show ¬(("booking" : String) = "doctor_list") from by decide),
        if_neg (show ¬(("booking" : String) = "symptom_analysis") from by decide),
        if_pos (show True ∧ st0.pending ≠ [] from ⟨trivial, hPend⟩)]
    simp only [appBookingBranch, hCity, hDept]
    cases pd with
    | none =>
      simp only [appBookingFinish, if_neg hne, hTop, hDoc, hS, hE, hB,
        if_neg (not_not_intro hIn)]
      exact ⟨_, rfl, rfl⟩
    | some d =>
      simp only [appBookingFinish, if_neg hne, hTop, hDoc, hS, hE, hB,
        if_neg (not_not_intro hIn)]
      exact ⟨_, rfl, rfl⟩
  · intro u1 u2 hneU h
    apply hneU
    have d := congrArg String.data h
    simp at d
    exact congrArg String.mk d

/-- C2 witness: in-window booking at 10:00 with draw "ab12cd". -/
theorem C2_witness :
    (timeLE (9, 0) (10, 0) ∧ timeLE (10, 0) (17, 0))
      ∧ (∃ out, appTurn hsA dsA none demoUser stPend "book at 10:00" none "2026-10-12" "ab12cd"
            = some out
          ∧ out.bookings.map Booking.bookingId = ["A" ++ strUpper "ab12cd"])
      ∧ ∀ u1 u2 : String, strUpper u1 ≠ strUpper u2
          → ("A" ++ strUpper u1 : String) ≠ "A" ++ strUpper u2 :=
  ⟨by decide,
   C2_theorem hsA dsA none demoUser stPend "book at 10:00" none "2026-10-12" "ab12cd"
     "Kochi" "Cardiology" ⟨1, "Apollo", "Kochi", "Cardiology", 45⟩
     ⟨1, "Dr. Arun", 1, "Cardiology", 500, "09:00", "17:00"⟩ (9, 0) (17, 0) (10, 0)
     (by decide) (by decide) (by decide) (by decide) (by decide) (by decide)
     (by decide) (by decide) (by decide) (by decide)⟩

/-- C2 counterexample: two in-window booking turns of the same session
whose uuid draws coincide produce two bookings with the same identifier
"AAB12CD" — uniqueness is not enforced by the code. -/
theorem C2_counterexample :
    ((appTurn hsA dsA none demoUser stPend "book at 10:00" none "2026-10-12" "ab12cd").bind
        fun o1 => (appTurn hsA dsA none demoUser o1.state "book at 10:00" none "2026-10-12"
            "ab12cd").map
          fun o2 => (o1.bookings.map Booking.bookingId, o2.bookings.map Booking.bookingId))
      = some (["AAB12CD"], ["AAB12CD"]) :=
  rfl

/-- C3 (amended): across any turn of any of the three variants, the
pending-slot keys stay within {department, city, hospital_id, date}
(note `hospital_id`, not `hospital`, and no `time` key), and every session
reset empties the mapping; a successful booking is not guaranteed to empty
it (see the counterexample). -/
theorem C3_theorem (hs : List Hospital) (ds : List Doctor)
    (csv : Option (List (String × String))) (dl : String) (u : UserInfo) (st0 : SessState)
    (um ui : String) (pd : Option String) (td ux mrs mrg : String)
    (hInv : ∀ k ∈ dictKeys st0.pending, k ∈ slotKeysAmended) :
    (∀ out, appTurn hs ds csv u st0 um pd td ux = some out
        → ∀ k ∈ dictKeys out.state.pending, k ∈ slotKeysAmended)
      ∧ (∀ out, chatTurn hs ds csv u st0 ui pd ux mrs mrg = some out
          → ∀ k ∈ dictKeys out.state.pending, k ∈ slotKeysAmended)
      ∧ (∀ out, botTurn hs ds dl u st0 um pd td ux = some out
          → ∀ k ∈ dictKeys out.state.pending, k ∈ slotKeysAmended)
      ∧ appLogoutReset.pending = [] ∧ (chatClearConversation st0).pending = []
      ∧ (chatLogoutReset st0).pending = [] ∧ botLogoutReset.pending = [] := by
  refine ⟨?_, ?_, ?_, rfl, rfl, rfl, rfl⟩
  · intro out hout k hk
    rcases appTurn_pending_shapes hs ds csv u st0 um pd td ux out hout with
      hp | ⟨d, c, hp⟩ | ⟨v, hp⟩
    · rw [hp] at hk
      exact hInv k hk
    · rw [hp] at hk
      simp only [dictKeys, List.map_cons, List.map_nil, List.mem_cons] at hk
      rcases hk with rfl | rfl | hk2
      · decide
      · decide
      · exact absurd hk2 (List.not_mem_nil k)
    · rw [hp] at hk
      rcases dictKeys_dictSet _ _ _ _ hk with rfl | hk2
      · simp [slotKeysAmended]
      · exact hInv k hk2
  · intro out hout k hk
    rcases chatTurn_pending_shapes hs ds csv u st0 ui pd ux mrs mrg out hout with
      hp | ⟨d, c, hp⟩ | hp | ⟨v, d, c, hp⟩
    · rw [hp] at hk
      exact hInv k hk
    · rw [hp] at hk
      simp only [dictKeys, List.map_cons, List.map_nil, List.mem_cons] at hk
      rcases hk with rfl | rfl | hk2
      · decide
      · decide
      · exact absurd hk2 (List.not_mem_nil k)
    · rw [hp] at hk
      simp [dictKeys] at hk
    · rw [hp] at hk
      rcases dictKeys_dictSet _ _ _ _ hk with rfl | hk2
      · simp [slotKeysAmended]
      · rcases dictKeys_dictSet _ _ _ _ hk2 with rfl | hk3
        · simp [slotKeysAmended]
        · rcases dictKeys_dictSet _ _ _ _ hk3 with rfl | hk4
          · simp [slotKeysAmended]
          · exact hInv k hk4
  · intro out hout k hk
    rcases botTurn_pending_shapes hs ds dl u st0 um pd td ux out hout with hp | ⟨d, c, hp⟩
    · rw [hp] at hk
      exact hInv k hk
    · rw [hp] at hk
      simp only [dictKeys, List.map_cons, List.map_nil, List.mem_cons] at hk
      rcases hk with rfl | rfl | hk2
      · decide
      · decide
      · exact absurd hk2 (List.not_mem_nil k)

/-- C3 witness: the invariant instantiated on the Cardiology/Kochi
pending state. -/
theorem C3_witness :
    (∀ k ∈ dictKeys stPend.pending, k ∈ slotKeysAmended)
      ∧ ((∀ out, appTurn hsA dsA none demoUser stPend "book at 10:00" none "2026-10-12" "ab12cd"
              = some out → ∀ k ∈ dictKeys out.state.pending, k ∈ slotKeysAmended)
        ∧ (∀ out, chatTurn hsA dsA none demoUser stPend "book cardiology" none "ab12cd" "" ""
              = some out → ∀ k ∈ dictKeys out.state.pending, k ∈ slotKeysAmended)
        ∧ (∀ out, botTurn hsA dsA "X" demoUser stPend "book at 10:00" none "2026-10-12" "ab12cd"
              = some out → ∀ k ∈ dictKeys out.state.pending, k ∈ slotKeysAmended)
        ∧ appLogoutReset.pending = [] ∧ (chatClearConversation stPend).pending = []
        ∧ (chatLogoutReset stPend).pending = [] ∧ botLogoutReset.pending = []) :=
  ⟨by decide,
   C3_theorem hsA dsA none "X" demoUser stPend "book at 10:00" "book cardiology" none
     "2026-10-12" "ab12cd" "" "" (by decide)⟩

/-- C3 counterexample: app.py's successful booking turn (one record
created) leaves the pending mapping non-empty, and chat.py's
missing-date/time prompt stores a `hospital_id` key, which is outside the
claimed key set {department, city, hospital, date, time}. -/
theorem C3_counterexample :
    (appTurn hsA dsA none demoUser stPend "book at 10:00" none "2026-10-12" "ab12cd").map
        (fun o => (o.bookings.length, o.state.pending))
      = some (1, [("department", "Cardiology"), ("city", "Kochi")])
    ∧ (chatTurn hsA dsA none demoUser stPend "book cardiology" (some "2026-10-15") "ab12cd"
          "" "").map (fun o => dictKeys o.state.pending)
      = some ["department", "city", "hospital_id"]
    ∧ "hospital_id" ∉ slotKeysClaimed :=
  ⟨rfl, rfl, by decide⟩

/-- C4 (amended): with the symptom CSV readable, the resolver is the
cascade (a) exact substring, (b) fuzzy match at cutoff 0.4, (d) "General
Medicine" — the keyword table is never consulted; with the CSV missing it
is (c) keyword table, (d) default — substring and fuzzy are skipped. -/
theorem C4_theorem (csv : Option (List (String × String))) (input : String) :
    predictDepartmentTf csv input = resolverPolicyAmended csv input := by
  cases csv with
  | none =>
    unfold predictDepartmentTf resolverPolicyAmended fallbackSymptomMapping stageKeywordTable
    cases h : symptomMap.find? (fun p => p.snd.any fun kw => strContains (strLower input) kw) <;>
      simp [h]
  | some df =>
    unfold predictDepartmentTf resolverPolicyAmended stageSubstring stageFuzzy
    cases h1 : df.find? (fun row => strContains (strLower input) (strLower row.fst)) with
    | some row => simp [h1, Option.orElse]
    | none =>
      cases h2 : getCloseMatches1 (strLower input) (df.map fun r => strLower r.fst) with
      | some closest =>
        cases h3 : df.find? (fun r => strLower r.fst = closest) <;>
          simp [h1, h2, h3, Option.orElse]
      | none => simp [h1, h2, Option.orElse]

set_option maxRecDepth 4000 in
/-- C4 counterexample: with the CSV present, an input ("cancer") that
matches only the keyword table resolves to the default label, while the
claimed a-b-c-d cascade would return the table's department — stage (c)
is unreachable when the CSV loads. -/
theorem C4_counterexample :
    predictDepartmentTf (some [("zzzzzzzz", "Orthopedics")]) "cancer" = "General Medicine"
      ∧ resolverPolicyClaimed [("zzzzzzzz", "Orthopedics")] "cancer" = "Oncology" :=
  ⟨rfl, rfl⟩

/-- C5 (amended): within app.py's booking branch, slots persist — the
department and city read from the pending mapping stay present and
unchanged after the turn, any booking created uses the pending department,
and when no date was parsed the mapping is returned untouched; so a turn-2
message supplying only a time reuses turn-1's department and city.
Symptom-analysis and doctor-list turns, however, replace the whole mapping
(see the counterexample). -/
theorem C5_theorem (hs : List Hospital) (ds : List Doctor)
    (csv : Option (List (String × String))) (u : UserInfo) (st0 : SessState)
    (um : String) (pd : Option String) (td ux : String) (city dept : String)
    (hIntent : detectIntentApp (strLower um) st0.lastIntent = "booking")
    (hPend : st0.pending ≠ [])
    (hCity : dictGet st0.pending "city" = some city)
    (hDept : dictGet st0.pending "department" = some dept) :
    ∀ out, appTurn hs ds csv u st0 um pd td ux = some out →
      dictGet out.state.pending "city" = some city
        ∧ dictGet out.state.pending "department" = some dept
        ∧ (∀ b ∈ out.bookings, b.department = dept)
        ∧ (pd = none → out.state.pending = st0.pending) := by
  intro out hout
  simp only [appTurn, hIntent] at hout
  rw [if_neg (show ¬(("booking" : String) = "hospital_list") from by decide),
      if_neg (show ¬(("booking" : String) = "doctor_list") from by decide),
      if_neg (show ¬(("booking" : String) = "symptom_analysis") from by decide),
      if_pos (show True ∧ st0.pending ≠ [] from ⟨trivial, hPend⟩)] at hout
  simp only [appBookingBranch, hCity, hDept] at hout
  cases pd with
  | none =>
    simp only [appBookingFinish] at hout
    repeat' split at hout
    all_goals first
      | (injection hout with hout; subst hout)
      | injection hout
    all_goals refine ⟨hCity, hDept, ?_, fun _ => rfl⟩
    all_goals intro b hb
    all_goals first
      | exact absurd hb (List.not_mem_nil b)
      | (simp only [List.mem_singleton] at hb; subst hb; rfl)
  | some d =>
    simp only [appBookingFinish] at hout
    repeat' split at hout
    all_goals first
      | (injection hout with hout; subst hout)
      | injection hout
    all_goals refine ⟨?_, ?_, ?_, fun hpd => absurd hpd (Option.some_ne_none d)⟩
    all_goals first
      | (rw [dictGet_dictSet_ne st0.pending "date" d "city" (by decide)]; exact hCity)
      | (rw [dictGet_dictSet_ne st0.pending "date" d "department" (by decide)]; exact hDept)
      | skip
    all_goals intro b hb
    all_goals first
      | exact absurd hb (List.not_mem_nil b)
      | (simp only [List.mem_singleton] at hb; subst hb; rfl)

/-- C5 witness: pending Cardiology/Kochi, a time-only message. -/
theorem C5_witness :
    dictGet stPend.pending "city" = some "Kochi"
      ∧ ∀ out, appTurn hsA dsA none demoUser stPend "book at 10:00" none "2026-10-12" "ab12cd"
            = some out →
          dictGet out.state.pending "city" = some "Kochi"
            ∧ dictGet out.state.pending "department" = some "Cardiology"
            ∧ (∀ b ∈ out.bookings, b.department = "Cardiology")
            ∧ ((none : Option String) = none → out.state.pending = stPend.pending) :=
  ⟨by decide,
   C5_theorem hsA dsA none demoUser stPend "book at 10:00" none "2026-10-12" "ab12cd"
     "Kochi" "Cardiology" (by decide) (by decide) (by decide) (by decide)⟩

/-- C5 counterexample: turn 1 (symptom) fills department and city, turn 2
(booking with a parsed date) adds a date slot, and turn 3 (another
symptom message, which extracts no date) wipes the date slot — the date
value did not persist although no new date was extracted. -/
theorem C5_counterexample :
    ((appTurn hsC dsA none demoUser ⟨none, [], none⟩ "i have chest pain in kochi" none
          "2026-10-12" "x1").bind
        fun o1 => (appTurn hsC dsA none demoUser o1.state "book on monday" (some "2026-10-13")
            "2026-10-12" "x2").bind
          fun o2 => (appTurn hsC dsA none demoUser o2.state "i have a rash" none
              "2026-10-12" "x3").map
            fun o3 => (dictGet o2.state.pending "date", dictGet o3.state.pending "date"))
      = some (some "2026-10-13", none) :=
  rfl

/-- C6 (confirmed): a turn whose message contains no match of the time
regex books (if it books at all) with the fixed default time "10:00" in
app.py and chatbot.py, and chat.py creates no booking at all in that case
(it asks for the time instead). -/
theorem C6_theorem (hs : List Hospital) (ds : List Doctor)
    (csv : Option (List (String × String))) (dl : String) (u : UserInfo) (st0 : SessState)
    (um : String) (pd : Option String) (td ux mrs mrg : String)
    (hApp : timeSearchApp (strLower um).toList = none)
    (hBot : timeSearchBot (strLower um).toList = none)
    (hChat : timeSearchChat (strTrim um).toList = none) :
    (∀ out, appTurn hs ds csv u st0 um pd td ux = some out
        → ∀ b ∈ out.bookings, b.time = "10:00")
      ∧ (∀ out, botTurn hs ds dl u st0 um pd td ux = some out
          → ∀ b ∈ out.bookings, b.time = "10:00")
      ∧ (∀ out, chatTurn hs ds csv u st0 um pd ux mrs mrg = some out
          → out.bookings = []) := by
  have hA : appBookingTimeStr (strLower um) = "10:00" := by
    unfold appBookingTimeStr
    rw [hApp]
  have hB10 : (timeSearchBot (strLower um).toList).getD "10:00" = "10:00" := by
    rw [hBot]
    rfl
  have hC : chatParsedTime (strTrim um) = none := by
    unfold chatParsedTime
    rw [hChat]
  refine ⟨?_, ?_, ?_⟩
  · intro out hout b hb
    exact (appTurn_bookings_time hs ds csv u st0 um pd td ux out hout b hb).trans hA
  · intro out hout b hb
    exact (botTurn_bookings_time hs ds dl u st0 um pd td ux out hout b hb).trans hB10
  · intro out hout
    exact chatTurn_no_time_no_booking hs ds csv u st0 um pd ux mrs mrg out hC hout

/-- C6 witness: "book an appointment" holds no digits, so none of the
three regexes match; the app.py booking then uses 10:00. -/
theorem C6_witness :
    timeSearchApp (strLower "book an appointment").toList = none
      ∧ ((∀ out, appTurn hsA dsA none demoUser stPend "book an appointment" none "2026-10-12"
              "ab12cd" = some out → ∀ b ∈ out.bookings, b.time = "10:00")
        ∧ (∀ out, botTurn hsA dsA "X" demoUser stPend "book an appointment" none "2026-10-12"
              "ab12cd" = some out → ∀ b ∈ out.bookings, b.time = "10:00")
        ∧ (∀ out, chatTurn hsA dsA none demoUser stPend "book an appointment" none "ab12cd"
              "" "" = some out → out.bookings = [])) :=
  ⟨by decide,
   C6_theorem hsA dsA none "X" demoUser stPend "book an appointment" none "2026-10-12"
     "ab12cd" "" "" (by decide) (by decide) (by decide)⟩

/-- C7 (confirmed): a hospital-lookup turn whose effective city is not in
the hospital table answers with the "not found" message for that city and
completes without raising, in app.py and in chat.py. -/
theorem C7_theorem (hs : List Hospital) (ds : List Doctor)
    (csv : Option (List (String × String))) (u : UserInfo) (st0 : SessState)
    (um : String) (pd : Option String) (td ux mrs mrg : String) (c : String)
    (hIntent : detectIntentApp (strLower um) st0.lastIntent = "hospital_list")
    (hDet : detectCity hs (strLower um) = none)
    (hCityVal : st0.city.getD u.city = c)
    (hNotIn : ∀ h ∈ hs, ¬strLower h.city = strLower c)
    (hG : greetKwsChat.any (fun w => strContains (strLower (strTrim um)) w) = false)
    (hSy : symptomKwsChat.any (fun w => strContains (strLower (strTrim um)) w) = false)
    (hBk : bookingKwsChat.any (fun w => strContains (strLower (strTrim um)) w) = false)
    (hDr : doctorKwsChat.any (fun w => strContains (strLower (strTrim um)) w) = false)
    (hHo : hospitalKwsChat.any (fun w => strContains (strLower (strTrim um)) w) = true)
    (hDetChat : detectCity hs (strLower (strTrim um)) = none)
    (hCne : c ≠ "") :
    appTurn hs ds csv u st0 um pd td ux
        = some ⟨"Sorry, no hospitals found in " ++ c ++ ".",
            ⟨st0.city, st0.pending, some "hospital_list"⟩, []⟩
      ∧ chatTurn hs ds csv u st0 um pd ux mrs mrg
        = some ⟨"No hospitals found in " ++ c ++ ".",
            ⟨st0.city, st0.pending, st0.lastIntent⟩, []⟩ := by
  have hfilter : ∀ cc, cc = c → hs.filter (fun h => strLower h.city == strLower cc) = [] := by
    intro cc hcc
    subst hcc
    rw [List.filter_eq_nil_iff]
    intro a ha
    simpa using hNotIn a ha
  constructor
  · simp only [appTurn, hIntent, hDet]
    simp [appHospitalBranch, hCityVal, hfilter c rfl]
  · simp only [chatTurn, hG, hSy, hBk, hDr, hHo, hDetChat]
    simp [chatHospitalBranch, hCityVal, hCne, hfilter c rfl]

/-- C7 witness: session city "Goa" with the `hsA` table (Kochi only). -/
theorem C7_witness :
    (∀ h ∈ hsA, ¬strLower h.city = strLower "Goa")
      ∧ appTurn hsA dsA none demoUser ⟨some "Goa", [], none⟩ "nearby hospitals" none
            "2026-10-12" "x"
          = some ⟨"Sorry, no hospitals found in " ++ "Goa" ++ ".",
              ⟨some "Goa", [], some "hospital_list"⟩, []⟩
      ∧ chatTurn hsA dsA none demoUser ⟨some "Goa", [], none⟩ "nearby hospitals" none "x"
            "mrs" "mrg"
          = some ⟨"No hospitals found in " ++ "Goa" ++ ".", ⟨some "Goa", [], none⟩, []⟩ :=
  ⟨by decide,
   C7_theorem hsA dsA none demoUser ⟨some "Goa", [], none⟩ "nearby hospitals" none
     "2026-10-12" "x" "mrs" "mrg" "Goa" (by decide) (by decide) (by decide) (by decide)
     (by decide) (by decide) (by decide) (by decide) (by decide) (by decide) (by decide)⟩

/-- C8 (amended): when the pending department and city are present and
some hospital matches, app.py and chatbot.py select a matching hospital
of maximal rating and the first doctor listed for that hospital and
department, and chat.py does the same provided the message names no
hospital — a hospital name occurring in the message overrides chat.py's
rating-based choice (see the counterexample). -/
theorem C8_theorem (hs : List Hospital) (ds : List Doctor)
    (csv : Option (List (String × String))) (dl : String) (u : UserInfo) (st0 : SessState)
    (um : String) (pd pdb : Option String) (td ux mrs mrg dateD timeS : String)
    (city dept : String) (topH : Hospital) (doctor : Doctor) (sT eT bT reqT : Nat × Nat)
    (hCity : dictGet st0.pending "city" = some city)
    (hDept : dictGet st0.pending "department" = some dept)
    (hTop : topByRating (matchingHospitals hs city dept) = some topH)
    (hDoc : (doctorsFor ds topH.hospitalId dept).head? = some doctor)
    (hIntent : detectIntentApp (strLower um) st0.lastIntent = "booking")
    (hPend : st0.pending ≠ [])
    (hS : parseTimeHM doctor.startTime = some sT)
    (hE : parseTimeHM doctor.endTime = some eT)
    (hB : parseTimeHM (appBookingTimeStr (strLower um)) = some bT)
    (hIn : timeLE sT bT ∧ timeLE bT eT)
    (hG : greetKwsChat.any (fun w => strContains (strLower (strTrim um)) w) = false)
    (hSy : symptomKwsChat.any (fun w => strContains (strLower (strTrim um)) w) = false)
    (hBk : bookingKwsChat.any (fun w => strContains (strLower (strTrim um)) w) = true)
    (hSel : (uniqueHospitalNames hs).find?
        (fun hn => strContains (strLower (strTrim um)) (strLower hn)) = none)
    (hDeptMsg : (uniqueDepartments hs).find?
        (fun d => strContains (strLower (strTrim um)) (strLower d)) = none)
    (hPt : chatParsedTime (strTrim um) = some timeS)
    (hReq : parseTimeHM timeS = some reqT)
    (hInC : timeLE sT reqT ∧ timeLE reqT eT)
    (hIntentBot : detectIntentBot (strLower um) st0.lastIntent = "booking")
    (hBotCity : (detectCity hs (strLower um)).getD u.city = city) :
    topH ∈ matchingHospitals hs city dept
      ∧ (∀ hh ∈ matchingHospitals hs city dept, hh.rating ≤ topH.rating)
      ∧ (∃ out, appTurn hs ds csv u st0 um pd td ux = some out
          ∧ out.bookings.map Booking.hospital = [topH.hospitalName]
          ∧ out.bookings.map Booking.doctor = [doctor.doctorName])
      ∧ (∃ out, chatTurn hs ds csv u st0 um (some dateD) ux mrs mrg = some out
          ∧ out.bookings.map Booking.hospital = [topH.hospitalName]
          ∧ out.bookings.map Booking.doctor = [doctor.doctorName])
      ∧ (∃ out, botTurn hs ds dl u st0 um pdb td ux = some out
          ∧ out.bookings.map Booking.hospital = [topH.hospitalName]
          ∧ out.bookings.map Booking.doctor = [doctor.doctorName]) := by
  have hne : matchingHospitals hs city dept ≠ [] := by
    intro he
    rw [he] at hTop
    simp [topByRating] at hTop
  refine ⟨topByRating_mem _ _ hTop, topByRating_max _ _ hTop, ?_, ?_, ?_⟩
  · simp only [appTurn, hIntent]
    rw [if_neg (show ¬(("booking" : String) = "hospital_list") from by decide),
        if_neg (show ¬(("booking" : String) = "doctor_list") from by decide),
        if_neg (show ¬(("booking" : String) = "symptom_analysis") from by decide),
        if_pos (show True ∧ st0.pending ≠ [] from ⟨trivial, hPend⟩)]
    simp only [appBookingBranch, hCity, hDept]
    cases pd with
    | none =>
      simp only [appBookingFinish, if_neg hne, hTop, hDoc, hS, hE, hB,
        if_neg (not_not_intro hIn)]
      exact ⟨_, rfl, rfl, rfl⟩
    | some d =>
      simp only [appBookingFinish, if_neg hne, hTop, hDoc, hS, hE, hB,
        if_neg (not_not_intro hIn)]
      exact ⟨_, rfl, rfl, rfl⟩
  · simp only [chatTurn]
    rw [if_neg (show ¬(greetKwsChat.any (fun w => strContains (strLower (strTrim um)) w)
            = true) from by simp [hG]),
        if_neg (show ¬(symptomKwsChat.any (fun w => strContains (strLower (strTrim um)) w)
            = true) from by simp [hSy]),
        if_pos hBk]
    simp [chatBookingBranch, hSel, hDeptMsg, hDept, hCity, hTop, hDoc, hPt, hS, hE,
      hReq, hne, hInC.1, hInC.2]
  · simp only [botTurn, hIntentBot]
    rw [if_neg (show ¬(("booking" : String) = "symptom") from by decide),
        if_neg (show ¬(("booking" : String) = "hospital") from by decide),
        if_neg (show ¬(("booking" : String) = "doctor") from by decide),
        if_pos (show True ∧ st0.pending ≠ [] from ⟨trivial, hPend⟩)]
    simp [botBookingBranch, hBotCity, hDept, hTop, hDoc, hne]

/-- C8 witness: "book at 10:00" (naming no hospital and no department)
books Apollo — the only, hence top-rated, match — with its first listed
doctor Dr. Arun in all three variants. -/
theorem C8_witness :
    topByRating (matchingHospitals hsA "Kochi" "Cardiology")
        = some ⟨1, "Apollo", "Kochi", "Cardiology", 45⟩
      ∧ ((⟨1, "Apollo", "Kochi", "Cardiology", 45⟩ : Hospital)
            ∈ matchingHospitals hsA "Kochi" "Cardiology"
        ∧ (∀ hh ∈ matchingHospitals hsA "Kochi" "Cardiology",
            hh.rating ≤ (⟨1, "Apollo", "Kochi", "Cardiology", 45⟩ : Hospital).rating)
        ∧ (∃ out, appTurn hsA dsA none demoUser stPend "book at 10:00" none "2026-10-12"
              "ab12cd" = some out
            ∧ out.bookings.map Booking.hospital
                = [(⟨1, "Apollo", "Kochi", "Cardiology", 45⟩ : Hospital).hospitalName]
            ∧ out.bookings.map Booking.doctor
                = [(⟨1, "Dr. Arun", 1, "Cardiology", 500, "09:00", "17:00"⟩ : Doctor).doctorName])
        ∧ (∃ out, chatTurn hsA dsA none demoUser stPend "book at 10:00" (some "2026-10-15")
              "ab12cd" "mrs" "mrg" = some out
            ∧ out.bookings.map Booking.hospital
                = [(⟨1, "Apollo", "Kochi", "Cardiology", 45⟩ : Hospital).hospitalName]
            ∧ out.bookings.map Booking.doctor
                = [(⟨1, "Dr. Arun", 1, "Cardiology", 500, "09:00", "17:00"⟩ : Doctor).doctorName])
        ∧ (∃ out, botTurn hsA dsA "X" demoUser stPend "book at 10:00" none "2026-10-12"
              "ab12cd" = some out
            ∧ out.bookings.map Booking.hospital
                = [(⟨1, "Apollo", "Kochi", "Cardiology", 45⟩ : Hospital).hospitalName]
            ∧ out.bookings.map Booking.doctor
                = [(⟨1, "Dr. Arun", 1, "Cardiology", 500, "09:00", "17:00"⟩ : Doctor).doctorName])) :=
  ⟨by decide,
   C8_theorem hsA dsA none "X" demoUser stPend "book at 10:00" none none "2026-10-12"
     "ab12cd" "mrs" "mrg" "2026-10-15" "10:00" "Kochi" "Cardiology"
     ⟨1, "Apollo", "Kochi", "Cardiology", 45⟩
     ⟨1, "Dr. Arun", 1, "Cardiology", 500, "09:00", "17:00"⟩ (9, 0) (17, 0) (10, 0) (10, 0)
     (by decide) (by decide) (by decide) (by decide) (by decide) (by decide) (by decide)
     (by decide) (by decide) (by decide) (by decide) (by decide) (by decide) (by decide)
     (by decide) (by decide) (by decide) (by decide) (by decide) (by decide)⟩

/-- C8 counterexample: chat.py's booking branch with pending
Cardiology/Kochi and the message "book carewell at 10:00" books the
message-named Carewell (rating 3.0⭐) and its doctor, although Apollo
(4.5⭐) is the highest-rated matching hospital — the named hospital
overrides the rating-based selection. -/
theorem C8_counterexample :
    (chatTurn hsD dsD none demoUser stPend "book carewell at 10:00" (some "2026-10-15")
        "ab12cd" "" "").map (fun o => o.bookings.map fun b => (b.hospital, b.doctor))
      = some [("Carewell", "Dr. Binu")]
    ∧ topByRating (matchingHospitals hsD "Kochi" "Cardiology")
        = some ⟨1, "Apollo", "Kochi", "Cardiology", 45⟩
    ∧ (⟨2, "Carewell", "Kochi", "Cardiology", 30⟩ : Hospital)
        ∈ matchingHospitals hsD "Kochi" "Cardiology"
    ∧ (⟨2, "Carewell", "Kochi", "Cardiology", 30⟩ : Hospital).rating
        < (⟨1, "Apollo", "Kochi", "Cardiology", 45⟩ : Hospital).rating :=
  ⟨rfl, rfl, by decide, by decide⟩

/-- C9 (amended): city detection returns the first city in table
(`unique()`) order whose lowered name occurs in the lowered message — not
the last-mentioned city — and the detected city overwrites the session
city for the turn. -/
theorem C9_theorem (hs : List Hospital) (ds : List Doctor)
    (csv : Option (List (String × String))) (u : UserInfo) (st0 : SessState)
    (um : String) (pd : Option String) (td ux : String) (c : String)
    (h : detectCity hs (strLower um) = some c) :
    strContains (strLower um) (strLower c) = true
      ∧ (∃ pre post, uniqueCities hs = pre ++ c :: post
          ∧ ∀ c' ∈ pre, strContains (strLower um) (strLower c') = false)
      ∧ ∀ out, appTurn hs ds csv u st0 um pd td ux = some out → out.state.city = some c := by
  obtain ⟨hp, pre, post, hl, hpre⟩ := find?_decomp _ _ _ h
  refine ⟨hp, ⟨pre, post, hl, hpre⟩, ?_⟩
  intro out hout
  rw [appTurn_city hs ds csv u st0 um pd td ux out hout, h]

/-- C9 witness: the message mentions Chennai then Kochi; table order puts
Chennai first, so Chennai is detected and overwrites the session city. -/
theorem C9_witness :
    detectCity hsB (strLower "travelling from chennai to kochi") = some "Chennai"
      ∧ (strContains (strLower "travelling from chennai to kochi") (strLower "Chennai") = true
        ∧ (∃ pre post, uniqueCities hsB = pre ++ "Chennai" :: post
            ∧ ∀ c' ∈ pre, strContains (strLower "travelling from chennai to kochi")
                (strLower c') = false)
        ∧ ∀ out, appTurn hsB dsA none demoUser ⟨none, [], none⟩
              "travelling from chennai to kochi" none "2026-10-12" "x" = some out
            → out.state.city = some "Chennai") :=
  ⟨by decide,
   C9_theorem hsB dsA none demoUser ⟨none, [], none⟩ "travelling from chennai to kochi"
     none "2026-10-12" "x" "Chennai" (by decide)⟩

/-- C9 counterexample: the message mentions Chennai before Kochi, so the
last-mentioned city is Kochi, but the code detects Chennai (first in
table order) and stores it as the session city. -/
theorem C9_counterexample :
    detectCity hsB "travelling from chennai to kochi" = some "Chennai"
      ∧ lastMentionedCity hsB "travelling from chennai to kochi" = some "Kochi"
      ∧ (appTurn hsB dsA none demoUser ⟨none, [], none⟩ "travelling from chennai to kochi"
            none "2026-10-12" "x").map (fun o => o.state.city) = some (some "Chennai") :=
  ⟨rfl, rfl, rfl⟩

/-- C10 (amended): a booking-intent turn with an empty pending mapping
falls through to the generic capability message in app.py and chatbot.py,
creates no booking, asks for no specific slot, and leaves the pending
mapping empty — but the turn's city detection may still overwrite the
session city (see the counterexample), and the last intent is set to
"unknown". -/
theorem C10_theorem (hs : List Hospital) (ds : List Doctor)
    (csv : Option (List (String × String))) (dl : String) (u : UserInfo) (st0 : SessState)
    (um : String) (pd : Option String) (td ux : String)
    (hIntentApp : detectIntentApp (strLower um) st0.lastIntent = "booking")
    (hIntentBot : detectIntentBot (strLower um) st0.lastIntent = "booking")
    (hPend : st0.pending = []) :
    appTurn hs ds csv u st0 um pd td ux
        = some ⟨appHelpMsg,
            ⟨(match detectCity hs (strLower um) with | some c => some c | none => st0.city),
             st0.pending, some "unknown"⟩, []⟩
      ∧ botTurn hs ds dl u st0 um pd td ux
        = some ⟨botHelpMsg,
            ⟨(match detectCity hs (strLower um) with | some c => some c | none => st0.city),
             st0.pending, some "unknown"⟩, []⟩ := by
  constructor
  · simp only [appTurn, hIntentApp]
    rw [if_neg (show ¬(("booking" : String) = "hospital_list") from by decide),
        if_neg (show ¬(("booking" : String) = "doctor_list") from by decide),
        if_neg (show ¬(("booking" : String) = "symptom_analysis") from by decide),
        if_neg (show ¬(True ∧ st0.pending ≠ []) from fun hh => hh.2 hPend)]
  · simp only [botTurn, hIntentBot]
    rw [if_neg (show ¬(("booking" : String) = "symptom") from by decide),
        if_neg (show ¬(("booking" : String) = "hospital") from by decide),
        if_neg (show ¬(("booking" : String) = "doctor") from by decide),
        if_neg (show ¬(True ∧ st0.pending ≠ []) from fun hh => hh.2 hPend)]

/-- C10 witness: "book in kochi" with an empty pending mapping. -/
theorem C10_witness :
    (⟨none, [], none⟩ : SessState).pending = []
      ∧ (appTurn hsA dsA none demoUser ⟨none, [], none⟩ "book in kochi" none "2026-10-12" "x"
          = some ⟨appHelpMsg,
              ⟨(match detectCity hsA (strLower "book in kochi") with
                  | some c => some c | none => (⟨none, [], none⟩ : SessState).city),
               (⟨none, [], none⟩ : SessState).pending, some "unknown"⟩, []⟩
        ∧ botTurn hsA dsA "X" demoUser ⟨none, [], none⟩ "book in kochi" none "2026-10-12" "x"
          = some ⟨botHelpMsg,
              ⟨(match detectCity hsA (strLower "book in kochi") with
                  | some c => some c | none => (⟨none, [], none⟩ : SessState).city),
               (⟨none, [], none⟩ : SessState).pending, some "unknown"⟩, []⟩) :=
  ⟨rfl,
   C10_theorem hsA dsA none "X" demoUser ⟨none, [], none⟩ "book in kochi" none "2026-10-12" "x"
     (by decide) (by decide) rfl⟩

/-- C10 counterexample: the same turn updates the session city from
`none` to "Kochi" — the session state beyond chat history and last intent
does change. -/
theorem C10_counterexample :
    appTurn hsA dsA none demoUser ⟨none, [], none⟩ "book in kochi" none "2026-10-12" "x"
        = some ⟨appHelpMsg, ⟨some "Kochi", [], some "unknown"⟩, []⟩
      ∧ (some "Kochi" : Option String) ≠ none :=
  ⟨rfl, by decide⟩
